import Mathlib

set_option maxRecDepth 100000

/-!
# Verification of the Blind Spot Finder orchestration pipeline

Shallow embedding of the core pipeline of the repository (`src/app.py`,
`src/sl_app.py`, `src/agents/skeptic.py`, `src/utils/combine.py`,
`src/utils/debate.py`) in Lean 4.

Texts are modelled as `List Char` (`Str`).  The completion service is an
oracle: an `Env` holds the optional API credential and a deterministic
response function from (call index, call payload) to either a response
text or a transport error.  Every embedded operation threads an explicit
trace of the completion calls it has issued, so that call counts, call
order, payloads and temperatures are provable facts.  Fallible code
returns `Except Exn`.  Temperatures are rationals.
-/

/-- Texts are lists of characters. -/
abbrev Str := List Char

/-- View a Lean string literal as a `Str`. -/
def str (s : String) : Str := s.data

/-- One chat-completion request: system prompt, user content, model id,
sampling temperature.  Mirrors the argument list of every
`client.chat.completions.create(...)` call in the repository. -/
structure Call where
  system : Str
  user : Str
  model : Str
  temp : ℚ
deriving DecidableEq

/-- Trace of completion calls issued so far, in order. -/
abbrev Trace := List Call

/-- Exceptions that can escape the completion client.
`openAIKeyMissing` models the `OpenAIError` raised by the `OpenAI(...)`
constructor when `api_key` is `None` (modelled from the openai library:
the constructor raises before any network traffic).  `apiError` models a
transport/service failure raised by `chat.completions.create`. -/
inductive Exn where
  | openAIKeyMissing : Exn
  | apiError (msg : Str) : Exn
deriving DecidableEq

/-- Python exception class name, as used by `type(e).__name__` in
`src/app.py` line 113. -/
def exnName : Exn → Str
  | .openAIKeyMissing => str "OpenAIError"
  | .apiError _ => str "APIConnectionError"

/-- Python `str(e)` for the modelled exceptions. -/
def exnText : Exn → Str
  | .openAIKeyMissing =>
      str "The api_key client option must be set either by passing api_key to the client or by setting the OPENAI_API_KEY environment variable"
  | .apiError m => m

/-- The environment: optional credential (`OPENAI_API_KEY`) and the
deterministic behaviour of the completion service, as a function of the
index of the call (how many completion calls were issued before it,
process-wide) and the call payload. -/
structure Env where
  apiKey : Option Str
  respond : Nat → Call → Except Str Str

/-- `OpenAI(api_key=os.getenv("OPENAI_API_KEY"))`: constructing the client
raises `OpenAIError` when the credential is absent, and performs no
network call. -/
def mkClient (env : Env) : Except Exn Unit :=
  match env.apiKey with
  | none => .error .openAIKeyMissing
  | some _ => .ok ()

/-- `client.chat.completions.create(...)`: issues exactly one network
call (recorded in the trace whether or not it succeeds) and either
returns the raw response text or raises. -/
def chatCreate (env : Env) (c : Call) (st : Trace) : Except Exn Str × Trace :=
  (match env.respond st.length c with
   | .error m => .error (.apiError m)
   | .ok t => .ok t,
   st ++ [c])

/-- Python whitespace (the characters stripped by `str.strip()`,
restricted to ASCII). -/
def isPySpace (c : Char) : Bool :=
  c == ' ' || c == '\t' || c == '\n' || c == '\r' || c == Char.ofNat 11 || c == Char.ofNat 12

/-- Python `str.strip()`. -/
def pyStrip (s : Str) : Str :=
  ((s.dropWhile isPySpace).reverse.dropWhile isPySpace).reverse

/-- Python falsy-or-blank test `not s or not s.strip()`, the input guard
used by `run_full_analysis`, `debate_view` and `compare_ideas`. -/
def blank (s : Str) : Bool :=
  s.isEmpty || (pyStrip s).isEmpty

/-- Fuel-driven core of Python `str.replace`: replaces every
non-overlapping occurrence of `pat`, scanning left to right.  The fuel
is only a structural-recursion device; `replL` always supplies enough. -/
def replFuel (pat rep : Str) : Nat → Str → Str
  | 0, s => s
  | _ + 1, [] => if pat.isEmpty then rep else []
  | n + 1, c :: cs =>
    if !pat.isEmpty && pat.isPrefixOf (c :: cs) then
      rep ++ replFuel pat rep n ((c :: cs).drop pat.length)
    else
      (if pat.isEmpty then rep else []) ++ c :: replFuel pat rep n cs

/-- Python `s.replace(pat, rep)` on `Str` (pattern-first argument order
internally; see `pyReplace` for the Python order). -/
def replL (pat rep s : Str) : Str :=
  replFuel pat rep (s.length + 1) s

/-- Python `s.replace(pat, rep)`. -/
def pyReplace (s pat rep : Str) : Str := replL pat rep s

/-! ## Report composer (`src/utils/combine.py`) -/

/-- `{ANALYZER_OUTPUT}` placeholder token. -/
def tokA : Str := str "{ANALYZER_OUTPUT}"
/-- `{PERSPECTIVE_OUTPUT}` placeholder token. -/
def tokP : Str := str "{PERSPECTIVE_OUTPUT}"
/-- `{SKEPTIC_OUTPUT}` placeholder token. -/
def tokS : Str := str "{SKEPTIC_OUTPUT}"
/-- `{EXEC_SUMMARY}` placeholder token. -/
def tokE : Str := str "{EXEC_SUMMARY}"
/-- `{TOP_THREE}` placeholder token. -/
def tokT : Str := str "{TOP_THREE}"
/-- `{RECOMMENDATIONS}` placeholder token. -/
def tokR : Str := str "{RECOMMENDATIONS}"

/-- The six placeholder tokens of the report template. -/
def tokens : List Str := [tokA, tokP, tokS, tokE, tokT, tokR]

/-- A text is token-free when it contains none of the six placeholder
tokens as a substring. -/
def TokenFree (s : Str) : Prop := ∀ tok ∈ tokens, ¬ tok <:+: s

instance (s : Str) : Decidable (TokenFree s) := by
  unfold TokenFree; infer_instance

/-- Template chunk before `{EXEC_SUMMARY}`. -/
def chunk0 : Str := str "# Blind Spot Finder Report\n\n## Executive Summary\n"
/-- Template chunk between `{EXEC_SUMMARY}` and `{ANALYZER_OUTPUT}`. -/
def chunk1 : Str := str "\n\n## Analyzer Agent\n"
/-- Template chunk between `{ANALYZER_OUTPUT}` and `{PERSPECTIVE_OUTPUT}`. -/
def chunk2 : Str := str "\n\n## Perspective Agent\n"
/-- Template chunk between `{PERSPECTIVE_OUTPUT}` and `{SKEPTIC_OUTPUT}`. -/
def chunk3 : Str := str "\n\n## Skeptic Agent\n"
/-- Template chunk between `{SKEPTIC_OUTPUT}` and `{TOP_THREE}`. -/
def chunk4 : Str := str "\n\n## Top 3 Priorities\n"
/-- Template chunk between `{TOP_THREE}` and `{RECOMMENDATIONS}`. -/
def chunk5 : Str := str "\n\n## Recommendations\n"
/-- Template chunk after `{RECOMMENDATIONS}`. -/
def chunk6 : Str := str "\n"

/-- Modelled from the spec: the file `prompts/report_template.txt` read by
`utils.combine._load` is not under `src/`; per spec section 4.3 it is a fixed
document containing the six named placeholders.  Each placeholder sits on
a line of its own (surrounded by newlines). -/
def report_template : Str :=
  chunk0 ++ tokE ++ chunk1 ++ tokA ++ chunk2 ++ tokP ++ chunk3 ++ tokS ++
    chunk4 ++ tokT ++ chunk5 ++ tokR ++ chunk6

/-- `utils.combine.build_report`: six chained Python `str.replace` calls
on the loaded template, in source order `{ANALYZER_OUTPUT}`,
`{PERSPECTIVE_OUTPUT}`, `{SKEPTIC_OUTPUT}`, `{EXEC_SUMMARY}`,
`{TOP_THREE}`, `{RECOMMENDATIONS}`. -/
def build_report (analyzer_output perspective_output skeptic_output
    exec_summary top_three recommendations : Str) : Str :=
  pyReplace (pyReplace (pyReplace (pyReplace (pyReplace (pyReplace
    report_template
    tokA analyzer_output)
    tokP perspective_output)
    tokS skeptic_output)
    tokE exec_summary)
    tokT top_three)
    tokR recommendations

/-! ## Severity estimator and rendering
(`src/utils/combine.py` `build_severity_bars`, `src/app.py`
`render_severity_bars`) -/

/-- A Python value appearing as a severity score.  Values are abstracted
by the behaviour of `float(score)` in `render_severity_bars`: `num q`
stands for any value `float` converts to `q`; `nonNum` for any value on
which `float` raises. -/
inductive PyVal where
  | num (q : ℚ) : PyVal
  | nonNum (tag : Str) : PyVal
deriving DecidableEq

/-- The value returned by the severity estimator: either a Python dict
(an ordered label/score mapping) or some non-dict value. -/
inductive SevData where
  | dict (entries : List (Str × PyVal)) : SevData
  | notDict (tag : Str) : SevData

/-- `utils.combine.build_severity_bars`: the fixed, static five-category
mapping. -/
def build_severity_bars : SevData :=
  .dict [(str "Assumptions", .num 70), (str "Risks", .num 80),
         (str "Perspectives", .num 65), (str "Evidence", .num 60),
         (str "Fragility", .num 75)]

/-- Lines 131-136 of `src/app.py`: `score = float(score)` with fallback
`0.0` on exception, then `score = max(0.0, min(100.0, score))`. -/
def clampedScore (v : PyVal) : ℚ :=
  let s : ℚ := match v with | .num q => q | .nonNum _ => 0
  max 0 (min 100 s)

/-- Round half to even, the rounding used by Python `format(x, ".0f")`. -/
def roundHalfEven (q : ℚ) : ℤ :=
  let f : ℤ := ⌊q⌋
  let r : ℚ := q - f
  if r < 1/2 then f else if 1/2 < r then f + 1 else if f % 2 = 0 then f else f + 1

/-- Decimal rendering of an integer (as Python `"%d"`). -/
def intStr (i : ℤ) : Str :=
  if i < 0 then '-' :: Nat.toDigits 10 i.natAbs else Nat.toDigits 10 i.toNat

/-- Python `f"{score:.0f}"`. -/
def fmtQ0 (q : ℚ) : Str := intStr (roundHalfEven q)

/-- One row of the severity bar HTML (the f-string appended per entry in
`render_severity_bars`, lines 137-157 of `src/app.py`). -/
def severityRow (label : Str) (v : PyVal) : Str :=
  str "\n        <div style=\"font-family: system-ui, sans-serif; font-size: 0.9rem;\">\n            <div style=\"display:flex;justify-content:space-between;\">\n                <strong>" ++
  label ++
  str "</strong>\n                <span>" ++
  fmtQ0 (clampedScore v) ++
  str "%</span>\n            </div>\n            <div style=\"\n                background: #222;\n                height: 10px;\n                border-radius: 999px;\n                overflow: hidden;\n                box-shadow: inset 0 0 4px rgba(0,0,0,0.7);\n            \">\n                <div style=\"\n                    height: 10px;\n                    width: " ++
  fmtQ0 (clampedScore v) ++
  str "%;\n                    background: linear-gradient(90deg, #ff4d4d, #ffb347);\n                \"></div>\n            </div>\n        </div>\n        "

/-- The body of `render_severity_bars` (`src/app.py` lines 125-159),
factored over the data it receives from the estimator: a non-dict value
degrades to a fixed warning, a dict is rendered row by row with each
score clamped to [0,100]. -/
def render_severity_bars_data (data : SevData) : Str :=
  match data with
  | .notDict _ => str "<p>\u26a0\ufe0f Could not compute severity distribution.</p>"
  | .dict entries =>
      str "<div style=\x27display:flex;flex-direction:column;gap:12px;\x27>" ++
      entries.foldl (fun acc e => acc ++ severityRow e.1 e.2) [] ++
      str "</div>"

/-- `render_severity_bars` as called by the pipeline. -/
def render_severity_bars : Str :=
  render_severity_bars_data build_severity_bars

/-! ## Agent invocations -/

/-- Modelled from the spec: `src/agents/analyzer.py` is not under `src/`;
per spec section 4.2 the Analyzer loads a fixed structural-weakness persona. -/
def analyzer_prompt : Str :=
  str "You are the Analyzer Agent. Identify structural weaknesses, hidden assumptions, and missing constraints in USER_TEXT."

/-- Modelled from the spec: `src/agents/perspective.py` is not under
`src/`; per spec section 4.2 the Perspective agent loads a fixed
alternate-viewpoints persona. -/
def perspective_prompt : Str :=
  str "You are the Perspective Agent. Apply alternate expert viewpoints to USER_TEXT, using the Analyzer output as context."

/-- Modelled from the spec: the file `prompts/skeptic_prompt.txt` read by
`agents.skeptic._load_prompt` is not under `src/`; per spec section 4.2 it is
the fixed red-team persona. -/
def skeptic_prompt : Str :=
  str "You are the Skeptic Agent. Aggressively red-team USER_TEXT, surfacing failure modes and fragility."

/-- `DEBATE_PROMPT` from `src/utils/debate.py`. -/
def DEBATE_PROMPT : Str :=
  str "\nCreate a debate between:\nAnalyzer \u2022 Perspective \u2022 Skeptic\n\nShow 2 rounds:\nAnalyzer:\nPerspective:\nSkeptic:\n\nFocus on disagreements and contradictions.\n"

/-- The completion call issued by `run_analyzer`.  Modelled from the
spec: input is the subject text only. -/
def analyzerCall (text model : Str) (temp : ℚ) : Call :=
  ⟨analyzer_prompt, str "USER_TEXT:\n" ++ text, model, temp⟩

/-- The completion call issued by `run_perspective_agent`.  Modelled from
the spec: input is the subject text plus the Analyzer output as extra
context. -/
def perspectiveCall (text analyzer model : Str) (temp : ℚ) : Call :=
  ⟨perspective_prompt,
   str "USER_TEXT:\n" ++ text ++ str "\n\nANALYZER_OUTPUT:\n" ++ analyzer,
   model, temp⟩

/-- The completion call issued by `run_skeptic`
(`src/agents/skeptic.py`): user content `f"USER_TEXT:\n{text}"`. -/
def skepticCall (text model : Str) (temp : ℚ) : Call :=
  ⟨skeptic_prompt, str "USER_TEXT:\n" ++ text, model, temp⟩

/-- The completion call issued by `build_debate_transcript`
(`src/utils/debate.py`). -/
def debateCall (text analyzer perspective skeptic model : Str) (temp : ℚ) : Call :=
  ⟨DEBATE_PROMPT,
   str "\nUSER_TEXT:\n" ++ text ++ str "\n\nANALYZER_OUTPUT:\n" ++ analyzer ++
     str "\n\nPERSPECTIVE_OUTPUT:\n" ++ perspective ++
     str "\n\nSKEPTIC_OUTPUT:\n" ++ skeptic ++ str "\n",
   model, temp⟩

/-- Modelled from the spec: `run_analyzer` (file `src/agents/analyzer.py`
missing from `src/`) constructs the client and issues one completion
call on the subject text, returning the trimmed first choice. -/
def run_analyzer (env : Env) (text model : Str) (temp : ℚ) (st : Trace) :
    Except Exn Str × Trace :=
  match mkClient env with
  | .error e => (.error e, st)
  | .ok _ =>
    match chatCreate env (analyzerCall text model temp) st with
    | (.error e, st1) => (.error e, st1)
    | (.ok t, st1) => (.ok (pyStrip t), st1)

/-- Modelled from the spec: `run_perspective_agent` (file
`src/agents/perspective.py` missing from `src/`) constructs the client and
issues one completion call on the subject text plus the Analyzer output,
returning the trimmed first choice. -/
def run_perspective_agent (env : Env) (text analyzer model : Str) (temp : ℚ)
    (st : Trace) : Except Exn Str × Trace :=
  match mkClient env with
  | .error e => (.error e, st)
  | .ok _ =>
    match chatCreate env (perspectiveCall text analyzer model temp) st with
    | (.error e, st1) => (.error e, st1)
    | (.ok t, st1) => (.ok (pyStrip t), st1)

/-- `run_skeptic` from `src/agents/skeptic.py`: construct the client
(raises when the credential is absent), issue one completion call,
return the trimmed first choice. -/
def run_skeptic (env : Env) (text model : Str) (temp : ℚ) (st : Trace) :
    Except Exn Str × Trace :=
  match mkClient env with
  | .error e => (.error e, st)
  | .ok _ =>
    match chatCreate env (skepticCall text model temp) st with
    | (.error e, st1) => (.error e, st1)
    | (.ok t, st1) => (.ok (pyStrip t), st1)

/-- `build_debate_transcript` from `src/utils/debate.py`, with the
`temperature` parameter explicit. -/
def build_debate_transcript (env : Env) (text analyzer perspective skeptic
    model : Str) (temp : ℚ) (st : Trace) : Except Exn Str × Trace :=
  match mkClient env with
  | .error e => (.error e, st)
  | .ok _ =>
    match chatCreate env (debateCall text analyzer perspective skeptic model temp) st with
    | (.error e, st1) => (.error e, st1)
    | (.ok t, st1) => (.ok (pyStrip t), st1)

/-- The Python default of the `temperature` parameter of
`build_debate_transcript` (`temperature=0.5` in `src/utils/debate.py`
line 18). -/
def debate_default_temperature : ℚ := 1/2

/-- `build_debate_transcript` invoked without a `temperature` argument,
as both front-end debate paths do (`src/app.py` line 231,
`src/sl_app.py` line 222). -/
def build_debate_transcript_default (env : Env) (text analyzer perspective
    skeptic model : Str) (st : Trace) : Except Exn Str × Trace :=
  build_debate_transcript env text analyzer perspective skeptic model
    debate_default_temperature st

/-! ## Orchestrator (`src/app.py`, `src/sl_app.py`) -/

/-- The `+0.1` temperature bias capped at `1.0`, as written at
`src/app.py` lines 54, 57, 228. -/
def biasedTemp (t : ℚ) : ℚ := min 1 (t + 1/10)

/-- `exec_summary` constant from `run_full_analysis` (`src/app.py` lines
61-71, identical in `src/sl_app.py`), after `dedent(...).strip()`. -/
def exec_summary : Str :=
  str "This idea has been evaluated by three specialized agents:\n\n- **Analyzer Agent** \u2014 extracts structural weaknesses, hidden assumptions, and missing constraints.  \n- **Perspective Agent** \u2014 applies alternate expert viewpoints to reveal what you didn\x27t consider.  \n- **Skeptic Agent** \u2014 aggressively red-teams the idea, surfacing failure modes and fragility.\n\nUse this report as a **pre-mortem**: fix these issues *before* you invest time, money, or reputation."

/-- `top_three` constant from `run_full_analysis` (`src/app.py` lines
73-79). -/
def top_three : Str :=
  str "1. Identify the single most dangerous assumption and validate it immediately.  \n2. Resolve any conflicts between perspectives (e.g., user, technical, ethical).  \n3. Prepare mitigation for at least one worst-case scenario raised by the Skeptic Agent."

/-- `recommendations` constant from `run_full_analysis` (`src/app.py`
lines 81-87). -/
def recommendations : Str :=
  str "- Turn each blind spot into a concrete experiment or validation step.  \n- Re-run this multi-agent analysis after you update the idea.  \n- Share this report with a colleague and ask where they disagree with it."

/-- The `except` branch of `run_full_analysis` (`src/app.py` line 113):
`f"\u274c Error during analysis: \u0060{type(e).__name__}\u0060 \u2014 {e}"`. -/
def errMsg (e : Exn) : Str :=
  str "\u274c Error during analysis: \u0060" ++ exnName e ++ str "\u0060 \u2014 " ++ exnText e

/-- The body of the `try` block of `run_full_analysis`: the three
sequential agent invocations with the biased temperatures of
`src/app.py` lines 47-58. -/
def analysis_core (env : Env) (idea model : Str) (temp : ℚ) (st : Trace) :
    Except Exn (Str × Str × Str) × Trace :=
  match run_analyzer env idea model temp st with
  | (.error e, st1) => (.error e, st1)
  | (.ok a, st1) =>
    match run_perspective_agent env idea a model (biasedTemp temp) st1 with
    | (.error e, st2) => (.error e, st2)
    | (.ok p, st2) =>
      match run_skeptic env idea model (biasedTemp temp) st2 with
      | (.error e, st3) => (.error e, st3)
      | (.ok s, st3) => (.ok (a, p, s), st3)

/-- The six-component return value of `run_full_analysis` in
`src/app.py`: overview report, the three agent outputs, severity bars
HTML, status message. -/
structure RunResult where
  report : Str
  analyzer : Str
  perspective : Str
  skeptic : Str
  severity : Str
  status : Str
deriving DecidableEq

/-- `run_full_analysis` from `src/app.py`: guard on blank input (no
network call), run the three agents sequentially, compose the report,
render the severity bars; every exception is caught and converted to
`errMsg` with all other fields empty. -/
def run_full_analysis (env : Env) (idea model : Str) (temp : ℚ) (st : Trace) :
    RunResult × Trace :=
  if blank idea then
    (⟨str "\u26a0\ufe0f Please enter an idea, plan, or argument first.",
      [], [], [], [], str "No input provided."⟩, st)
  else
    match analysis_core env idea model temp st with
    | (.error e, st1) => (⟨errMsg e, [], [], [], [], errMsg e⟩, st1)
    | (.ok (a, p, s), st1) =>
      (⟨build_report a p s exec_summary top_three recommendations,
        a, p, s, render_severity_bars,
        str "\u2705 Multi-agent analysis complete."⟩, st1)

/-- The five-component return value of `run_full_analysis` in
`src/sl_app.py` (no status message). -/
structure SlRunResult where
  report : Str
  analyzer : Str
  perspective : Str
  skeptic : Str
  severity : Str
deriving DecidableEq

/-- `run_full_analysis` from `src/sl_app.py`: identical logic to the
`src/app.py` version but returns five components. -/
def sl_run_full_analysis (env : Env) (idea model : Str) (temp : ℚ) (st : Trace) :
    SlRunResult × Trace :=
  if blank idea then
    (⟨str "\u26a0\ufe0f Please enter an idea, plan, or argument first.",
      [], [], [], []⟩, st)
  else
    match analysis_core env idea model temp st with
    | (.error e, st1) => (⟨errMsg e, [], [], [], []⟩, st1)
    | (.ok (a, p, s), st1) =>
      (⟨build_report a p s exec_summary top_three recommendations,
        a, p, s, render_severity_bars⟩, st1)

/-- `debate_view` from `src/app.py` lines 215-235: guard on blank input,
re-run the three agents (Perspective at the UNbiased base temperature,
per line 225), then one debate-synthesizer call with the temperature
argument omitted.  There is no `try`/`except`: exceptions propagate. -/
def debate_view (env : Env) (idea model : Str) (temp : ℚ) (st : Trace) :
    Except Exn Str × Trace :=
  if blank idea then
    (.ok (str "\u26a0\ufe0f Please enter an idea first."), st)
  else
    match run_analyzer env idea model temp st with
    | (.error e, st1) => (.error e, st1)
    | (.ok a, st1) =>
      match run_perspective_agent env idea a model temp st1 with
      | (.error e, st2) => (.error e, st2)
      | (.ok p, st2) =>
        match run_skeptic env idea model (biasedTemp temp) st2 with
        | (.error e, st3) => (.error e, st3)
        | (.ok s, st3) =>
          build_debate_transcript_default env idea a p s model st3

/-- `debate_view` from `src/sl_app.py` lines 206-226, textually identical
to the `src/app.py` version. -/
def sl_debate_view : Env → Str → Str → ℚ → Trace → Except Exn Str × Trace :=
  debate_view

/-- System prompt of `compare_ideas` (`src/app.py` lines 177-196), after
`dedent(...).strip()`. -/
def COMPARE_PROMPT : Str :=
  str "You are a rigorous evaluator comparing two ideas.\n\nCompare IDEA A vs IDEA B on:\n- Strengths\n- Weaknesses\n- Blind spots\n- Risk profile\n- Robustness under stress\n- Likely success conditions\n\nThen give:\n- A short verdict on which is more robust\n- One suggestion to improve IDEA A\n- One suggestion to improve IDEA B\n\nBe concise but concrete."

/-- The completion call issued by `compare_ideas`. -/
def compareCall (ideaA ideaB model : Str) (temp : ℚ) : Call :=
  ⟨COMPARE_PROMPT, str "IDEA A:\n" ++ ideaA ++ str "\n\nIDEA B:\n" ++ ideaB,
   model, temp⟩

/-- `compare_ideas` from `src/app.py` lines 165-209: guard on blank
inputs, then an explicit credential check returning a dedicated message
BEFORE any client construction or network call; the single completion
call itself is not wrapped in `try`/`except`. -/
def compare_ideas (env : Env) (ideaA ideaB model : Str) (temp : ℚ) (st : Trace) :
    Except Exn Str × Trace :=
  if blank ideaA || blank ideaB then
    (.ok (str "\u26a0\ufe0f Please provide **both** Idea A and Idea B for comparison."), st)
  else
    match env.apiKey with
    | none => (.ok (str "\u274c OPENAI_API_KEY missing. Check your .env file."), st)
    | some _ =>
      match chatCreate env (compareCall ideaA ideaB model temp) st with
      | (.error e, st1) => (.error e, st1)
      | (.ok t, st1) => (.ok (pyStrip t), st1)

/-- The combined analysis-plus-debate user action: in `src/app.py` the
Run button is wired to `run_full_analysis` AND `debate_view` (lines
324-342); in `src/sl_app.py` the run handler calls `run_full_analysis`
then `debate_view` (lines 331-356).  The completion service sees the
concatenation of both traces. -/
def combined_action (env : Env) (idea model : Str) (temp : ℚ) (st : Trace) :
    (RunResult × Except Exn Str) × Trace :=
  let r1 := run_full_analysis env idea model temp st
  let r2 := debate_view env idea model temp r1.2
  ((r1.1, r2.1), r2.2)

/-! ## Concrete environments used by witnesses and counterexamples -/

/-- Completion service that answers every call with `"out"`. -/
def envOut : Env := ⟨some (str "k"), fun _ _ => .ok (str "out")⟩

/-- Credential absent; the service would answer, but is never reached. -/
def envNoKey : Env := ⟨none, fun _ _ => .ok (str "out")⟩

/-- Every completion call fails with a transport error `"boom"`. -/
def envBoom : Env := ⟨some (str "k"), fun _ _ => .error (str "boom")⟩

/-- Scripted service: answers `"A1"`, `"P1"`, `"S1"`, then `"D1"`. -/
def envAPS : Env :=
  ⟨some (str "k"), fun n _ =>
    if n == 0 then .ok (str "A1")
    else if n == 1 then .ok (str "P1")
    else if n == 2 then .ok (str "S1")
    else .ok (str "D1")⟩

/-- Scripted service whose third answer (the Skeptic output) is itself a
placeholder token. -/
def envSkeTok : Env :=
  ⟨some (str "k"), fun n _ =>
    if n == 2 then .ok (str "{ANALYZER_OUTPUT}") else .ok (str "out")⟩

/-- Scripted service: two successes, then a transport failure on the
third call. -/
def envSkeFail : Env :=
  ⟨some (str "k"), fun n _ =>
    if n == 2 then .error (str "boom") else .ok (str "out")⟩

/-! ## Theory of Python `str.replace` (`replL`) -/

/-- The fuel of `replFuel` is irrelevant once it exceeds the length of
the subject string. -/
theorem replFuel_irrel (pat rep : Str) :
    ∀ n m s, s.length < n → s.length < m →
      replFuel pat rep n s = replFuel pat rep m s := by
  intro n
  induction n with
  | zero => intro m s hn _; exact absurd hn (Nat.not_lt_zero _)
  | succ n ih =>
    intro m s hn hm
    match m, s with
    | 0, s => exact absurd hm (Nat.not_lt_zero _)
    | m + 1, [] => rfl
    | m + 1, c :: cs =>
      simp only [replFuel]
      by_cases hc : (!pat.isEmpty && pat.isPrefixOf (c :: cs)) = true
      · rw [if_pos hc, if_pos hc]
        have hpat : pat ≠ [] := by
          intro hp; subst hp; simp at hc
        have hlen : 1 ≤ pat.length := List.length_pos.mpr hpat
        have hd : ((c :: cs).drop pat.length).length < n := by
          simp only [List.length_drop, List.length_cons]
          simp only [List.length_cons] at hn
          omega
        have hd2 : ((c :: cs).drop pat.length).length < m := by
          simp only [List.length_drop, List.length_cons]
          simp only [List.length_cons] at hm
          omega
        rw [ih _ _ hd hd2]
      · rw [if_neg hc, if_neg hc]
        have hcs : cs.length < n := by
          simp only [List.length_cons] at hn; omega
        have hcs2 : cs.length < m := by
          simp only [List.length_cons] at hm; omega
        rw [ih _ _ hcs hcs2]

/-- `replL` on the empty string. -/
theorem replL_nil (pat rep : Str) :
    replL pat rep [] = if pat.isEmpty then rep else [] := rfl

/-- One-step unfolding of `replL` on a nonempty string. -/
theorem replL_cons (pat rep : Str) (c : Char) (cs : Str) :
    replL pat rep (c :: cs) =
      if !pat.isEmpty && pat.isPrefixOf (c :: cs) then
        rep ++ replL pat rep ((c :: cs).drop pat.length)
      else
        (if pat.isEmpty then rep else []) ++ c :: replL pat rep cs := by
  show replFuel pat rep ((c :: cs).length + 1) (c :: cs) = _
  simp only [replL, List.length_cons, replFuel]
  by_cases hc : (!pat.isEmpty && pat.isPrefixOf (c :: cs)) = true
  · rw [if_pos hc, if_pos hc]
    have hpat : pat ≠ [] := by
      intro hp; subst hp; simp at hc
    have hlen : 1 ≤ pat.length := List.length_pos.mpr hpat
    congr 1
    apply replFuel_irrel <;>
      simp only [List.length_drop, List.length_cons] <;> omega
  · rw [if_neg hc, if_neg hc]

/-- A pattern longer than the subject cannot occur in it. -/
theorem not_infix_of_length_lt {pat s : Str} (h : s.length < pat.length) :
    ¬ pat <:+: s :=
  fun hh => absurd hh.length_le (by omega)

/-- If the pattern does not occur in the subject, `replL` is the
identity. -/
theorem replL_of_not_infix (pat rep : Str) :
    ∀ s : Str, ¬ pat <:+: s → replL pat rep s = s := by
  intro s
  induction s with
  | nil =>
    intro h
    have hpat : ¬ pat.isEmpty = true := by
      intro hp
      exact h (by simp [List.isEmpty_iff.mp hp])
    simp [replL_nil, hpat]
  | cons c cs ih =>
    intro h
    have hpat : pat ≠ [] := fun hp => h (by simp [hp])
    have hpre : ¬ pat.isPrefixOf (c :: cs) = true := by
      intro hp
      exact h ( List.IsPrefix.isInfix ( List.isPrefixOf_iff_prefix.mp hp))
    have hcond : (!pat.isEmpty && pat.isPrefixOf (c :: cs)) = false := by
      cases hb : pat.isPrefixOf (c :: cs) with
      | true => exact absurd hb hpre
      | false => simp [hb]
    have hempty : pat.isEmpty = false := by
      simpa [List.isEmpty_iff] using hpat
    rw [replL_cons, hcond, hempty]
    simp only [Bool.false_eq_true, if_false, List.nil_append]
    rw [ih (fun hh => h (List.infix_cons hh))]

/-- An occurrence of `pat` in `X ++ Y` lies within `X`, within `Y`, or
straddles the boundary: a nonempty suffix of `X` followed by a nonempty
prefix of `Y`. -/
theorem infix_append_cases {pat X Y : Str} (h : pat <:+: X ++ Y) :
    pat <:+: X ∨ pat <:+: Y ∨
      ∃ p1 p2, pat = p1 ++ p2 ∧ p1 ≠ [] ∧ p2 ≠ [] ∧ p1 <:+ X ∧ p2 <+: Y := by
  obtain ⟨a, b, hab⟩ := h
  have hlen := congrArg List.length hab
  simp only [List.length_append] at hlen
  have t1 : (a ++ pat ++ b).take X.length = X := by
    rw [hab]; exact List.take_left X Y
  have d1 : (a ++ pat ++ b).drop X.length = Y := by
    rw [hab]; exact List.drop_left X Y
  by_cases h1 : a.length + pat.length ≤ X.length
  · left
    have t2 : (a ++ pat ++ b).take X.length =
        a ++ pat ++ b.take (X.length - a.length - pat.length) := by
      rw [List.append_assoc, List.take_append_eq_append_take,
        List.take_of_length_le (by omega),
        List.take_append_eq_append_take,
        List.take_of_length_le (by omega), ← List.append_assoc]
    exact ⟨a, b.take (X.length - a.length - pat.length), t2.symm.trans t1⟩
  · by_cases h2 : X.length ≤ a.length
    · right; left
      have d2 : (a ++ pat ++ b).drop X.length = a.drop X.length ++ pat ++ b := by
        rw [List.append_assoc, List.drop_append_eq_append_drop]
        have hz : X.length - a.length = 0 := by omega
        rw [hz, List.drop_zero, ← List.append_assoc]
      exact ⟨a.drop X.length, b, d2.symm.trans d1⟩
    · right; right
      set k := X.length - a.length with hk
      have hk1 : 0 < k := by omega
      have hk2 : k < pat.length := by omega
      refine ⟨pat.take k, pat.drop k, (List.take_append_drop k pat).symm, ?_, ?_, ?_, ?_⟩
      · intro hnil
        have := congrArg List.length hnil
        simp only [List.length_take, List.length_nil] at this
        omega
      · intro hnil
        have := congrArg List.length hnil
        simp only [List.length_drop, List.length_nil] at this
        omega
      · -- pat.take k is a suffix of X, namely X = a ++ pat.take k
        have t2 : (a ++ pat ++ b).take X.length = a ++ pat.take k := by
          rw [List.append_assoc, List.take_append_eq_append_take,
            List.take_of_length_le (by omega),
            List.take_append_eq_append_take]
          have hz : X.length - a.length - pat.length = 0 := by omega
          rw [hz, List.take_zero, List.append_nil]
        exact ⟨a, t2.symm.trans t1⟩
      · -- pat.drop k is a prefix of Y, namely Y = pat.drop k ++ b
        have d2 : (a ++ pat ++ b).drop X.length = pat.drop k ++ b := by
          rw [List.append_assoc, List.drop_append_eq_append_drop,
            List.drop_eq_nil_of_le (by omega : a.length ≤ X.length),
            List.nil_append, List.drop_append_eq_append_drop]
          have hz : X.length - a.length - pat.length = 0 := by omega
          rw [hz, List.drop_zero]
        exact ⟨b, d2.symm.trans d1⟩

/-- Appending a text that does not contain the pattern, to the right of
a text ending in a newline, cannot create an occurrence of a
newline-free pattern. -/
theorem ni_snoc_out {pat X o : Str} (hnl : '\n' ∉ pat)
    (hX : ¬ pat <:+: X) (ho : ¬ pat <:+: o)
    (hend : X.getLast? = some '\n') : ¬ pat <:+: X ++ o := by
  intro h
  rcases infix_append_cases h with h | h | ⟨p1, p2, hp, h1, _, hsuf, _⟩
  · exact hX h
  · exact ho h
  · rcases List.eq_nil_or_concat p1 with rfl | ⟨L, x, rfl⟩
    · exact h1 rfl
    · obtain ⟨w, hw⟩ := hsuf
      have hx : x = '\n' := by
        have : X.getLast? = some x := by
          rw [← hw, List.concat_eq_append, ← List.append_assoc]
          exact List.getLast?_concat _
        rw [hend] at this
        exact (Option.some_injective _ this).symm
      apply hnl
      rw [hp, hx]
      simp [List.concat_eq_append]

/-- Appending a text starting with a newline, to the right of a text
that does not contain the pattern, cannot create an occurrence of a
newline-free pattern. -/
theorem ni_snoc_chunk {pat X C : Str} (hnl : '\n' ∉ pat)
    (hX : ¬ pat <:+: X) (hC : ¬ pat <:+: C)
    (hhead : C.head? = some '\n') : ¬ pat <:+: X ++ C := by
  intro h
  rcases infix_append_cases h with h | h | ⟨p1, p2, hp, _, h2, _, hpre⟩
  · exact hX h
  · exact hC h
  · match p2, h2 with
    | y :: p2t, _ =>
      obtain ⟨w, hw⟩ := hpre
      have hy : y = '\n' := by
        have : C.head? = some y := by rw [← hw]; rfl
        rw [hhead] at this
        exact (Option.some_injective _ this).symm
      apply hnl
      rw [hp, hy]
      simp

/-- The last character of `X ++ C` is the last character of a nonempty
`C`. -/
theorem getLast?_append_some {X C : Str} {c : Char}
    (h : C.getLast? = some c) : (X ++ C).getLast? = some c := by
  rw [List.getLast?_append, h]; rfl

/-- The step lemma: replacing `pat` in `X ++ (pat ++ Y)` when no
occurrence of `pat` starts inside `X` substitutes the designated
occurrence and recurses only on `Y`. -/
theorem replL_step (pat rep : Str) :
    ∀ X Y : Str, pat ≠ [] → ¬ pat <:+: (X ++ pat.dropLast) →
      replL pat rep (X ++ (pat ++ Y)) = X ++ (rep ++ replL pat rep Y) := by
  intro X
  induction X with
  | nil =>
    intro Y hpat _
    match pat, hpat with
    | c :: pt, _ =>
      rw [List.nil_append, List.nil_append, List.cons_append, replL_cons]
      have hcond : (!(c :: pt).isEmpty && (c :: pt).isPrefixOf (c :: (pt ++ Y))) = true := by
        apply Bool.and_eq_true_iff.mpr
        constructor
        · rfl
        · exact List.isPrefixOf_iff_prefix.mpr ⟨Y, by simp⟩
      rw [if_pos hcond]
      congr 1
      show replL (c :: pt) rep (((c :: pt) ++ Y).drop (c :: pt).length) = replL (c :: pt) rep Y
      rw [List.drop_left]
  | cons x X ih =>
    intro Y hpat hni
    rw [List.cons_append, replL_cons]
    have hnpre : ¬ pat.isPrefixOf (x :: (X ++ (pat ++ Y))) = true := by
      intro hpre
      apply hni
      -- an occurrence of `pat` at position 0 of `(x :: X) ++ pat ++ Y`
      -- lies inside `(x :: X) ++ pat.dropLast`
      have hW : (x :: X) ++ pat.dropLast <+: x :: (X ++ (pat ++ Y)) := by
        refine ⟨[pat.getLast hpat] ++ Y, ?_⟩
        conv_rhs => rw [← List.dropLast_append_getLast hpat]
        simp [List.append_assoc]
      obtain ⟨t, ht⟩ := hW
      obtain ⟨u, hu⟩ := List.isPrefixOf_iff_prefix.mp hpre
      -- pat = (x :: (X ++ (pat ++ Y))).take pat.length
      have htake : (x :: (X ++ (pat ++ Y))).take pat.length = pat := by
        rw [← hu, List.take_append_eq_append_take,
          List.take_of_length_le (le_refl _), Nat.sub_self, List.take_zero,
          List.append_nil]
      have hlenW : pat.length ≤ ((x :: X) ++ pat.dropLast).length := by
        simp only [List.length_append, List.length_cons, List.length_dropLast]
        have : 1 ≤ pat.length := List.length_pos.mpr hpat
        omega
      have htake2 : (x :: (X ++ (pat ++ Y))).take pat.length =
          ((x :: X) ++ pat.dropLast).take pat.length := by
        rw [← ht, List.take_append_eq_append_take,
          Nat.sub_eq_zero_of_le hlenW, List.take_zero, List.append_nil]
      have hpre2 := List.take_prefix pat.length ((x :: X) ++ pat.dropLast)
      rw [htake2.symm.trans htake] at hpre2
      exact List.IsPrefix.isInfix hpre2
    have hcond : (!pat.isEmpty && pat.isPrefixOf (x :: (X ++ (pat ++ Y)))) = false := by
      cases hb : pat.isPrefixOf (x :: (X ++ (pat ++ Y))) with
      | true => exact absurd hb hnpre
      | false => simp [hb]
    rw [hcond]
    have hempty : pat.isEmpty = false := by
      simpa [List.isEmpty_iff] using hpat
    simp only [Bool.false_eq_true, if_false, hempty, List.nil_append]
    have hni2 : ¬ pat <:+: (X ++ pat.dropLast) := by
      intro hh
      exact hni (by rw [List.cons_append]; exact List.infix_cons hh)
    rw [ih Y hpat hni2]
    rfl

/-- When all six inputs are token-free, `build_report` substitutes each
placeholder exactly once, yielding the template with each slot filled. -/
theorem build_report_split (a p s e t r : Str)
    (ha : TokenFree a) (hp : TokenFree p) (hs : TokenFree s)
    (he : TokenFree e) (ht : TokenFree t) (_hr : TokenFree r) :
    build_report a p s e t r =
      chunk0 ++ e ++ chunk1 ++ a ++ chunk2 ++ p ++ chunk3 ++ s ++
        chunk4 ++ t ++ chunk5 ++ r ++ chunk6 := by
  have e1 : pyReplace report_template tokA a =
      (chunk0 ++ tokE ++ chunk1) ++
        (a ++ (chunk2 ++ (tokP ++ (chunk3 ++ (tokS ++ (chunk4 ++ (tokT ++
          (chunk5 ++ (tokR ++ chunk6))))))))) := by
    have hshape : report_template =
        (chunk0 ++ tokE ++ chunk1) ++
          (tokA ++ (chunk2 ++ (tokP ++ (chunk3 ++ (tokS ++ (chunk4 ++ (tokT ++
            (chunk5 ++ (tokR ++ chunk6))))))))) := by
      simp only [report_template, List.append_assoc]
    simp only [pyReplace]
    rw [hshape,
      replL_step tokA a (chunk0 ++ tokE ++ chunk1) _ (by decide) (by decide),
      replL_of_not_infix tokA a _ (by decide)]
  have e2 : pyReplace ((chunk0 ++ tokE ++ chunk1) ++
        (a ++ (chunk2 ++ (tokP ++ (chunk3 ++ (tokS ++ (chunk4 ++ (tokT ++
          (chunk5 ++ (tokR ++ chunk6)))))))))) tokP p =
      (((chunk0 ++ tokE ++ chunk1) ++ a) ++ chunk2) ++
        (p ++ (chunk3 ++ (tokS ++ (chunk4 ++ (tokT ++
          (chunk5 ++ (tokR ++ chunk6))))))) := by
    have n1 : ¬ tokP <:+: ((chunk0 ++ tokE ++ chunk1) ++ a) :=
      ni_snoc_out (by decide) (by decide) (ha tokP (by decide)) (by decide)
    have n2 : ¬ tokP <:+: (((chunk0 ++ tokE ++ chunk1) ++ a) ++ chunk2) :=
      ni_snoc_chunk (by decide) n1 (by decide) (by decide)
    have n3 : ¬ tokP <:+:
        ((((chunk0 ++ tokE ++ chunk1) ++ a) ++ chunk2) ++ tokP.dropLast) :=
      ni_snoc_out (by decide) n2 (not_infix_of_length_lt (by decide))
        (getLast?_append_some (by decide))
    have hshape : (chunk0 ++ tokE ++ chunk1) ++
        (a ++ (chunk2 ++ (tokP ++ (chunk3 ++ (tokS ++ (chunk4 ++ (tokT ++
          (chunk5 ++ (tokR ++ chunk6))))))))) =
        (((chunk0 ++ tokE ++ chunk1) ++ a) ++ chunk2) ++
          (tokP ++ (chunk3 ++ (tokS ++ (chunk4 ++ (tokT ++
            (chunk5 ++ (tokR ++ chunk6))))))) := by
      simp only [List.append_assoc]
    simp only [pyReplace]
    rw [hshape, replL_step tokP p _ _ (by decide) n3,
      replL_of_not_infix tokP p _ (by decide)]
  have e3 : pyReplace ((((chunk0 ++ tokE ++ chunk1) ++ a) ++ chunk2) ++
        (p ++ (chunk3 ++ (tokS ++ (chunk4 ++ (tokT ++
          (chunk5 ++ (tokR ++ chunk6)))))))) tokS s =
      ((((((chunk0 ++ tokE ++ chunk1) ++ a) ++ chunk2) ++ p) ++ chunk3) ++
        (s ++ (chunk4 ++ (tokT ++ (chunk5 ++ (tokR ++ chunk6)))))) := by
    have n1 : ¬ tokS <:+: ((chunk0 ++ tokE ++ chunk1) ++ a) :=
      ni_snoc_out (by decide) (by decide) (ha tokS (by decide)) (by decide)
    have n2 : ¬ tokS <:+: (((chunk0 ++ tokE ++ chunk1) ++ a) ++ chunk2) :=
      ni_snoc_chunk (by decide) n1 (by decide) (by decide)
    have n3 : ¬ tokS <:+: ((((chunk0 ++ tokE ++ chunk1) ++ a) ++ chunk2) ++ p) :=
      ni_snoc_out (by decide) n2 (hp tokS (by decide))
        (getLast?_append_some (by decide))
    have n4 : ¬ tokS <:+:
        (((((chunk0 ++ tokE ++ chunk1) ++ a) ++ chunk2) ++ p) ++ chunk3) :=
      ni_snoc_chunk (by decide) n3 (by decide) (by decide)
    have n5 : ¬ tokS <:+:
        ((((((chunk0 ++ tokE ++ chunk1) ++ a) ++ chunk2) ++ p) ++ chunk3) ++
          tokS.dropLast) :=
      ni_snoc_out (by decide) n4 (not_infix_of_length_lt (by decide))
        (getLast?_append_some (by decide))
    have hshape : (((chunk0 ++ tokE ++ chunk1) ++ a) ++ chunk2) ++
        (p ++ (chunk3 ++ (tokS ++ (chunk4 ++ (tokT ++
          (chunk5 ++ (tokR ++ chunk6))))))) =
        (((((chunk0 ++ tokE ++ chunk1) ++ a) ++ chunk2) ++ p) ++ chunk3) ++
          (tokS ++ (chunk4 ++ (tokT ++ (chunk5 ++ (tokR ++ chunk6))))) := by
      simp only [List.append_assoc]
    simp only [pyReplace]
    rw [hshape, replL_step tokS s _ _ (by decide) n5,
      replL_of_not_infix tokS s _ (by decide)]
  have e4 : pyReplace (((((((chunk0 ++ tokE ++ chunk1) ++ a) ++ chunk2) ++ p) ++
        chunk3) ++ (s ++ (chunk4 ++ (tokT ++ (chunk5 ++ (tokR ++ chunk6)))))))
        tokE e =
      chunk0 ++
        (e ++ (chunk1 ++ a ++ chunk2 ++ p ++ chunk3 ++ s ++ chunk4 ++ tokT ++
          chunk5 ++ tokR ++ chunk6)) := by
    have m1 : ¬ tokE <:+: (chunk1 ++ a) :=
      ni_snoc_out (by decide) (by decide) (ha tokE (by decide)) (by decide)
    have m2 : ¬ tokE <:+: ((chunk1 ++ a) ++ chunk2) :=
      ni_snoc_chunk (by decide) m1 (by decide) (by decide)
    have m3 : ¬ tokE <:+: (((chunk1 ++ a) ++ chunk2) ++ p) :=
      ni_snoc_out (by decide) m2 (hp tokE (by decide))
        (getLast?_append_some (by decide))
    have m4 : ¬ tokE <:+: ((((chunk1 ++ a) ++ chunk2) ++ p) ++ chunk3) :=
      ni_snoc_chunk (by decide) m3 (by decide) (by decide)
    have m5 : ¬ tokE <:+: (((((chunk1 ++ a) ++ chunk2) ++ p) ++ chunk3) ++ s) :=
      ni_snoc_out (by decide) m4 (hs tokE (by decide))
        (getLast?_append_some (by decide))
    have m6 : ¬ tokE <:+:
        ((((((chunk1 ++ a) ++ chunk2) ++ p) ++ chunk3) ++ s) ++ chunk4) :=
      ni_snoc_chunk (by decide) m5 (by decide) (by decide)
    have m7 : ¬ tokE <:+:
        (((((((chunk1 ++ a) ++ chunk2) ++ p) ++ chunk3) ++ s) ++ chunk4) ++
          tokT) :=
      ni_snoc_out (by decide) m6 (by decide) (getLast?_append_some (by decide))
    have m8 : ¬ tokE <:+:
        ((((((((chunk1 ++ a) ++ chunk2) ++ p) ++ chunk3) ++ s) ++ chunk4) ++
          tokT) ++ chunk5) :=
      ni_snoc_chunk (by decide) m7 (by decide) (by decide)
    have m9 : ¬ tokE <:+:
        (((((((((chunk1 ++ a) ++ chunk2) ++ p) ++ chunk3) ++ s) ++ chunk4) ++
          tokT) ++ chunk5) ++ tokR) :=
      ni_snoc_out (by decide) m8 (by decide) (getLast?_append_some (by decide))
    have m10 : ¬ tokE <:+:
        ((((((((((chunk1 ++ a) ++ chunk2) ++ p) ++ chunk3) ++ s) ++ chunk4) ++
          tokT) ++ chunk5) ++ tokR) ++ chunk6) :=
      ni_snoc_chunk (by decide) m9 (by decide) (by decide)
    have hshape : ((((((chunk0 ++ tokE ++ chunk1) ++ a) ++ chunk2) ++ p) ++
        chunk3) ++ (s ++ (chunk4 ++ (tokT ++ (chunk5 ++ (tokR ++ chunk6)))))) =
        chunk0 ++
          (tokE ++ ((((((((((chunk1 ++ a) ++ chunk2) ++ p) ++ chunk3) ++ s) ++
            chunk4) ++ tokT) ++ chunk5) ++ tokR) ++ chunk6)) := by
      simp only [List.append_assoc]
    simp only [pyReplace]
    rw [hshape, replL_step tokE e chunk0 _ (by decide) (by decide),
      replL_of_not_infix tokE e _ m10]
  have e5 : pyReplace (chunk0 ++
        (e ++ (chunk1 ++ a ++ chunk2 ++ p ++ chunk3 ++ s ++ chunk4 ++ tokT ++
          chunk5 ++ tokR ++ chunk6))) tokT t =
      ((((((((chunk0 ++ e) ++ chunk1) ++ a) ++ chunk2) ++ p) ++ chunk3) ++ s) ++
        chunk4) ++ (t ++ (chunk5 ++ (tokR ++ chunk6))) := by
    have q1 : ¬ tokT <:+: (chunk0 ++ e) :=
      ni_snoc_out (by decide) (by decide) (he tokT (by decide)) (by decide)
    have q2 : ¬ tokT <:+: ((chunk0 ++ e) ++ chunk1) :=
      ni_snoc_chunk (by decide) q1 (by decide) (by decide)
    have q3 : ¬ tokT <:+: (((chunk0 ++ e) ++ chunk1) ++ a) :=
      ni_snoc_out (by decide) q2 (ha tokT (by decide))
        (getLast?_append_some (by decide))
    have q4 : ¬ tokT <:+: ((((chunk0 ++ e) ++ chunk1) ++ a) ++ chunk2) :=
      ni_snoc_chunk (by decide) q3 (by decide) (by decide)
    have q5 : ¬ tokT <:+: (((((chunk0 ++ e) ++ chunk1) ++ a) ++ chunk2) ++ p) :=
      ni_snoc_out (by decide) q4 (hp tokT (by decide))
        (getLast?_append_some (by decide))
    have q6 : ¬ tokT <:+:
        ((((((chunk0 ++ e) ++ chunk1) ++ a) ++ chunk2) ++ p) ++ chunk3) :=
      ni_snoc_chunk (by decide) q5 (by decide) (by decide)
    have q7 : ¬ tokT <:+:
        (((((((chunk0 ++ e) ++ chunk1) ++ a) ++ chunk2) ++ p) ++ chunk3) ++ s) :=
      ni_snoc_out (by decide) q6 (hs tokT (by decide))
        (getLast?_append_some (by decide))
    have q8 : ¬ tokT <:+:
        ((((((((chunk0 ++ e) ++ chunk1) ++ a) ++ chunk2) ++ p) ++ chunk3) ++
          s) ++ chunk4) :=
      ni_snoc_chunk (by decide) q7 (by decide) (by decide)
    have q9 : ¬ tokT <:+:
        (((((((((chunk0 ++ e) ++ chunk1) ++ a) ++ chunk2) ++ p) ++ chunk3) ++
          s) ++ chunk4) ++ tokT.dropLast) :=
      ni_snoc_out (by decide) q8 (not_infix_of_length_lt (by decide))
        (getLast?_append_some (by decide))
    have hshape : (chunk0 ++
        (e ++ (chunk1 ++ a ++ chunk2 ++ p ++ chunk3 ++ s ++ chunk4 ++ tokT ++
          chunk5 ++ tokR ++ chunk6))) =
        (((((((((chunk0 ++ e) ++ chunk1) ++ a) ++ chunk2) ++ p) ++ chunk3) ++
          s) ++ chunk4) ++ (tokT ++ (chunk5 ++ (tokR ++ chunk6)))) := by
      simp only [List.append_assoc]
    simp only [pyReplace]
    rw [hshape, replL_step tokT t _ _ (by decide) q9,
      replL_of_not_infix tokT t _ (by decide)]
  have e6 : pyReplace (((((((((chunk0 ++ e) ++ chunk1) ++ a) ++ chunk2) ++ p) ++
        chunk3) ++ s) ++ chunk4) ++ (t ++ (chunk5 ++ (tokR ++ chunk6)))) tokR r =
      ((((((((((chunk0 ++ e) ++ chunk1) ++ a) ++ chunk2) ++ p) ++ chunk3) ++
        s) ++ chunk4) ++ t) ++ chunk5) ++ (r ++ chunk6) := by
    have w1 : ¬ tokR <:+: (chunk0 ++ e) :=
      ni_snoc_out (by decide) (by decide) (he tokR (by decide)) (by decide)
    have w2 : ¬ tokR <:+: ((chunk0 ++ e) ++ chunk1) :=
      ni_snoc_chunk (by decide) w1 (by decide) (by decide)
    have w3 : ¬ tokR <:+: (((chunk0 ++ e) ++ chunk1) ++ a) :=
      ni_snoc_out (by decide) w2 (ha tokR (by decide))
        (getLast?_append_some (by decide))
    have w4 : ¬ tokR <:+: ((((chunk0 ++ e) ++ chunk1) ++ a) ++ chunk2) :=
      ni_snoc_chunk (by decide) w3 (by decide) (by decide)
    have w5 : ¬ tokR <:+: (((((chunk0 ++ e) ++ chunk1) ++ a) ++ chunk2) ++ p) :=
      ni_snoc_out (by decide) w4 (hp tokR (by decide))
        (getLast?_append_some (by decide))
    have w6 : ¬ tokR <:+:
        ((((((chunk0 ++ e) ++ chunk1) ++ a) ++ chunk2) ++ p) ++ chunk3) :=
      ni_snoc_chunk (by decide) w5 (by decide) (by decide)
    have w7 : ¬ tokR <:+:
        (((((((chunk0 ++ e) ++ chunk1) ++ a) ++ chunk2) ++ p) ++ chunk3) ++ s) :=
      ni_snoc_out (by decide) w6 (hs tokR (by decide))
        (getLast?_append_some (by decide))
    have w8 : ¬ tokR <:+:
        ((((((((chunk0 ++ e) ++ chunk1) ++ a) ++ chunk2) ++ p) ++ chunk3) ++
          s) ++ chunk4) :=
      ni_snoc_chunk (by decide) w7 (by decide) (by decide)
    have w9 : ¬ tokR <:+:
        (((((((((chunk0 ++ e) ++ chunk1) ++ a) ++ chunk2) ++ p) ++ chunk3) ++
          s) ++ chunk4) ++ t) :=
      ni_snoc_out (by decide) w8 (ht tokR (by decide))
        (getLast?_append_some (by decide))
    have w10 : ¬ tokR <:+:
        ((((((((((chunk0 ++ e) ++ chunk1) ++ a) ++ chunk2) ++ p) ++ chunk3) ++
          s) ++ chunk4) ++ t) ++ chunk5) :=
      ni_snoc_chunk (by decide) w9 (by decide) (by decide)
    have w11 : ¬ tokR <:+:
        (((((((((((chunk0 ++ e) ++ chunk1) ++ a) ++ chunk2) ++ p) ++ chunk3) ++
          s) ++ chunk4) ++ t) ++ chunk5) ++ tokR.dropLast) :=
      ni_snoc_out (by decide) w10 (not_infix_of_length_lt (by decide))
        (getLast?_append_some (by decide))
    have hshape : (((((((((chunk0 ++ e) ++ chunk1) ++ a) ++ chunk2) ++ p) ++
        chunk3) ++ s) ++ chunk4) ++ (t ++ (chunk5 ++ (tokR ++ chunk6)))) =
        (((((((((((chunk0 ++ e) ++ chunk1) ++ a) ++ chunk2) ++ p) ++ chunk3) ++
          s) ++ chunk4) ++ t) ++ chunk5) ++ (tokR ++ chunk6)) := by
      simp only [List.append_assoc]
    simp only [pyReplace]
    rw [hshape, replL_step tokR r _ _ (by decide) w11,
      replL_of_not_infix tokR r _ (by decide)]
  show pyReplace (pyReplace (pyReplace (pyReplace (pyReplace (pyReplace
      report_template tokA a) tokP p) tokS s) tokE e) tokT t) tokR r = _
  rw [e1, e2, e3, e4, e5, e6]
  simp only [List.append_assoc]

/-- No placeholder token occurs in a fully substituted report body when
every slot text is free of that token. -/
theorem no_token_in_composed (pat : Str) (hmem : pat ∈ tokens)
    {a p s e t r : Str}
    (ha : ¬ pat <:+: a) (hp : ¬ pat <:+: p) (hs : ¬ pat <:+: s)
    (he : ¬ pat <:+: e) (ht : ¬ pat <:+: t) (hr : ¬ pat <:+: r) :
    ¬ pat <:+: (chunk0 ++ e ++ chunk1 ++ a ++ chunk2 ++ p ++ chunk3 ++ s ++
      chunk4 ++ t ++ chunk5 ++ r ++ chunk6) := by
  have hfacts : ('\n' ∉ pat) ∧ (¬ pat <:+: chunk0) ∧ (¬ pat <:+: chunk1) ∧
      (¬ pat <:+: chunk2) ∧ (¬ pat <:+: chunk3) ∧ (¬ pat <:+: chunk4) ∧
      (¬ pat <:+: chunk5) ∧ (¬ pat <:+: chunk6) ∧
      chunk0.getLast? = some '\n' ∧ chunk1.head? = some '\n' ∧
      chunk1.getLast? = some '\n' ∧ chunk2.head? = some '\n' ∧
      chunk2.getLast? = some '\n' ∧ chunk3.head? = some '\n' ∧
      chunk3.getLast? = some '\n' ∧ chunk4.head? = some '\n' ∧
      chunk4.getLast? = some '\n' ∧ chunk5.head? = some '\n' ∧
      chunk5.getLast? = some '\n' ∧ chunk6.head? = some '\n' := by
    simp only [tokens, List.mem_cons, List.not_mem_nil, or_false] at hmem
    rcases hmem with rfl | rfl | rfl | rfl | rfl | rfl <;> exact (by decide)
  obtain ⟨hnl, h0, h1, h2, h3, h4, h5, h6, g0, g1h, g1l, g2h, g2l, g3h, g3l,
    g4h, g4l, g5h, g5l, g6h⟩ := hfacts
  have k1 : ¬ pat <:+: (chunk0 ++ e) := ni_snoc_out hnl h0 he g0
  have k2 := ni_snoc_chunk hnl k1 h1 g1h
  have k3 := ni_snoc_out hnl k2 ha (getLast?_append_some g1l)
  have k4 := ni_snoc_chunk hnl k3 h2 g2h
  have k5 := ni_snoc_out hnl k4 hp (getLast?_append_some g2l)
  have k6 := ni_snoc_chunk hnl k5 h3 g3h
  have k7 := ni_snoc_out hnl k6 hs (getLast?_append_some g3l)
  have k8 := ni_snoc_chunk hnl k7 h4 g4h
  have k9 := ni_snoc_out hnl k8 ht (getLast?_append_some g4l)
  have k10 := ni_snoc_chunk hnl k9 h5 g5h
  have k11 := ni_snoc_out hnl k10 hr (getLast?_append_some g5l)
  exact ni_snoc_chunk hnl k11 h6 g6h

/-! ## Execution lemmas for the pipeline operations -/

/-- Successful Analyzer invocation: one recorded call, trimmed output. -/
theorem run_analyzer_ok (env : Env) (key text model out : Str) (temp : ℚ)
    (st : Trace) (hk : env.apiKey = some key)
    (hr : env.respond st.length (analyzerCall text model temp) = .ok out) :
    run_analyzer env text model temp st =
      (.ok (pyStrip out), st ++ [analyzerCall text model temp]) := by
  simp [run_analyzer, mkClient, hk, chatCreate, hr]

/-- Successful Perspective invocation: one recorded call, trimmed output. -/
theorem run_perspective_agent_ok (env : Env) (key text ana model out : Str)
    (temp : ℚ) (st : Trace) (hk : env.apiKey = some key)
    (hr : env.respond st.length (perspectiveCall text ana model temp) = .ok out) :
    run_perspective_agent env text ana model temp st =
      (.ok (pyStrip out), st ++ [perspectiveCall text ana model temp]) := by
  simp [run_perspective_agent, mkClient, hk, chatCreate, hr]

/-- Successful Skeptic invocation: one recorded call, trimmed output. -/
theorem run_skeptic_ok (env : Env) (key text model out : Str) (temp : ℚ)
    (st : Trace) (hk : env.apiKey = some key)
    (hr : env.respond st.length (skepticCall text model temp) = .ok out) :
    run_skeptic env text model temp st =
      (.ok (pyStrip out), st ++ [skepticCall text model temp]) := by
  simp [run_skeptic, mkClient, hk, chatCreate, hr]

/-- The debate synthesizer records exactly one call, at the temperature
it was given, whether or not the service call succeeds. -/
theorem build_debate_transcript_trace (env : Env) (key text a p s model : Str)
    (temp : ℚ) (st : Trace) (hk : env.apiKey = some key) :
    (build_debate_transcript env text a p s model temp st).2 =
      st ++ [debateCall text a p s model temp] := by
  unfold build_debate_transcript chatCreate
  rw [show mkClient env = .ok () from by simp [mkClient, hk]]
  cases env.respond st.length (debateCall text a p s model temp) <;> simp

/-- Successful debate synthesizer call. -/
theorem build_debate_transcript_ok (env : Env) (key text a p s model out : Str)
    (temp : ℚ) (st : Trace) (hk : env.apiKey = some key)
    (hr : env.respond st.length (debateCall text a p s model temp) = .ok out) :
    build_debate_transcript env text a p s model temp st =
      (.ok (pyStrip out), st ++ [debateCall text a p s model temp]) := by
  simp [build_debate_transcript, mkClient, hk, chatCreate, hr]

/-- Successful run of the `try`-block of `run_full_analysis`: three
sequential calls with the biased temperatures. -/
theorem analysis_core_ok (env : Env) (key idea model a0 p0 s0 : Str)
    (temp : ℚ) (st : Trace) (hk : env.apiKey = some key)
    (h0 : env.respond st.length (analyzerCall idea model temp) = .ok a0)
    (h1 : env.respond (st.length + 1)
        (perspectiveCall idea (pyStrip a0) model (biasedTemp temp)) = .ok p0)
    (h2 : env.respond (st.length + 2)
        (skepticCall idea model (biasedTemp temp)) = .ok s0) :
    analysis_core env idea model temp st =
      (.ok (pyStrip a0, pyStrip p0, pyStrip s0),
       st ++ [analyzerCall idea model temp,
              perspectiveCall idea (pyStrip a0) model (biasedTemp temp),
              skepticCall idea model (biasedTemp temp)]) := by
  have r1 := run_analyzer_ok env key idea model a0 temp st hk h0
  have e1 : (st ++ [analyzerCall idea model temp]).length = st.length + 1 := by
    simp
  have r2 := run_perspective_agent_ok env key idea (pyStrip a0) model p0
    (biasedTemp temp) (st ++ [analyzerCall idea model temp]) hk
    (by rw [e1]; exact h1)
  have e2 : ((st ++ [analyzerCall idea model temp]) ++
      [perspectiveCall idea (pyStrip a0) model (biasedTemp temp)]).length =
      st.length + 2 := by simp
  have r3 := run_skeptic_ok env key idea model s0 (biasedTemp temp)
    ((st ++ [analyzerCall idea model temp]) ++
      [perspectiveCall idea (pyStrip a0) model (biasedTemp temp)]) hk
    (by rw [e2]; exact h2)
  simp only [List.append_assoc, List.cons_append, List.nil_append] at r2 r3
  simp only [analysis_core, r1, r2, r3, List.append_assoc, List.cons_append,
    List.nil_append]

/-- Successful `run_full_analysis`: exactly three calls, Analyzer at the
base temperature, Perspective and Skeptic at the biased temperature,
Perspective fed the Analyzer output, report composed from the trimmed
outputs. -/
theorem run_full_analysis_ok (env : Env) (key idea model a0 p0 s0 : Str)
    (temp : ℚ) (st : Trace) (hk : env.apiKey = some key)
    (hnb : blank idea = false)
    (h0 : env.respond st.length (analyzerCall idea model temp) = .ok a0)
    (h1 : env.respond (st.length + 1)
        (perspectiveCall idea (pyStrip a0) model (biasedTemp temp)) = .ok p0)
    (h2 : env.respond (st.length + 2)
        (skepticCall idea model (biasedTemp temp)) = .ok s0) :
    run_full_analysis env idea model temp st =
      (⟨build_report (pyStrip a0) (pyStrip p0) (pyStrip s0)
          exec_summary top_three recommendations,
        pyStrip a0, pyStrip p0, pyStrip s0, render_severity_bars,
        str "✅ Multi-agent analysis complete."⟩,
       st ++ [analyzerCall idea model temp,
              perspectiveCall idea (pyStrip a0) model (biasedTemp temp),
              skepticCall idea model (biasedTemp temp)]) := by
  have hc := analysis_core_ok env key idea model a0 p0 s0 temp st hk h0 h1 h2
  simp [run_full_analysis, hnb, hc]

/-- Successful `sl_run_full_analysis` (the `src/sl_app.py` version). -/
theorem sl_run_full_analysis_ok (env : Env) (key idea model a0 p0 s0 : Str)
    (temp : ℚ) (st : Trace) (hk : env.apiKey = some key)
    (hnb : blank idea = false)
    (h0 : env.respond st.length (analyzerCall idea model temp) = .ok a0)
    (h1 : env.respond (st.length + 1)
        (perspectiveCall idea (pyStrip a0) model (biasedTemp temp)) = .ok p0)
    (h2 : env.respond (st.length + 2)
        (skepticCall idea model (biasedTemp temp)) = .ok s0) :
    sl_run_full_analysis env idea model temp st =
      (⟨build_report (pyStrip a0) (pyStrip p0) (pyStrip s0)
          exec_summary top_three recommendations,
        pyStrip a0, pyStrip p0, pyStrip s0, render_severity_bars⟩,
       st ++ [analyzerCall idea model temp,
              perspectiveCall idea (pyStrip a0) model (biasedTemp temp),
              skepticCall idea model (biasedTemp temp)]) := by
  have hc := analysis_core_ok env key idea model a0 p0 s0 temp st hk h0 h1 h2
  simp [sl_run_full_analysis, hnb, hc]

/-- Successful `debate_view`: exactly four calls, Analyzer AND
Perspective at the base temperature (Perspective unbiased, per
`src/app.py` line 225), Skeptic at the biased temperature, and the
debate call at the omitted-argument default temperature. -/
theorem debate_view_ok (env : Env) (key idea model a0 p0 s0 d0 : Str)
    (temp : ℚ) (st : Trace) (hk : env.apiKey = some key)
    (hnb : blank idea = false)
    (h0 : env.respond st.length (analyzerCall idea model temp) = .ok a0)
    (h1 : env.respond (st.length + 1)
        (perspectiveCall idea (pyStrip a0) model temp) = .ok p0)
    (h2 : env.respond (st.length + 2)
        (skepticCall idea model (biasedTemp temp)) = .ok s0)
    (h3 : env.respond (st.length + 3)
        (debateCall idea (pyStrip a0) (pyStrip p0) (pyStrip s0) model
          debate_default_temperature) = .ok d0) :
    debate_view env idea model temp st =
      (.ok (pyStrip d0),
       st ++ [analyzerCall idea model temp,
              perspectiveCall idea (pyStrip a0) model temp,
              skepticCall idea model (biasedTemp temp),
              debateCall idea (pyStrip a0) (pyStrip p0) (pyStrip s0) model
                debate_default_temperature]) := by
  have r1 := run_analyzer_ok env key idea model a0 temp st hk h0
  have e1 : (st ++ [analyzerCall idea model temp]).length = st.length + 1 := by
    simp
  have r2 := run_perspective_agent_ok env key idea (pyStrip a0) model p0
    temp (st ++ [analyzerCall idea model temp]) hk (by rw [e1]; exact h1)
  have e2 : ((st ++ [analyzerCall idea model temp]) ++
      [perspectiveCall idea (pyStrip a0) model temp]).length =
      st.length + 2 := by simp
  have r3 := run_skeptic_ok env key idea model s0 (biasedTemp temp)
    ((st ++ [analyzerCall idea model temp]) ++
      [perspectiveCall idea (pyStrip a0) model temp]) hk
    (by rw [e2]; exact h2)
  have e3 : (((st ++ [analyzerCall idea model temp]) ++
      [perspectiveCall idea (pyStrip a0) model temp]) ++
      [skepticCall idea model (biasedTemp temp)]).length =
      st.length + 3 := by simp
  have r4 := build_debate_transcript_ok env key idea (pyStrip a0) (pyStrip p0)
    (pyStrip s0) model d0 debate_default_temperature
    (((st ++ [analyzerCall idea model temp]) ++
      [perspectiveCall idea (pyStrip a0) model temp]) ++
      [skepticCall idea model (biasedTemp temp)]) hk
    (by rw [e3]; exact h3)
  simp only [List.append_assoc, List.cons_append, List.nil_append] at r2 r3 r4
  simp [debate_view, hnb, build_debate_transcript_default, r1, r2, r3, r4]

/-- `run_full_analysis` converts any exception escaping its `try`-block
into the single formatted error message, with every other output field
empty, discarding all agent outputs already computed. -/
theorem run_full_analysis_err (env : Env) (idea model : Str) (temp : ℚ)
    (st st1 : Trace) (e : Exn) (hnb : blank idea = false)
    (hc : analysis_core env idea model temp st = (.error e, st1)) :
    run_full_analysis env idea model temp st =
      (⟨errMsg e, [], [], [], [], errMsg e⟩, st1) := by
  simp [run_full_analysis, hnb, hc]

/-- Same catch-all behaviour in the `src/sl_app.py` variant. -/
theorem sl_run_full_analysis_err (env : Env) (idea model : Str) (temp : ℚ)
    (st st1 : Trace) (e : Exn) (hnb : blank idea = false)
    (hc : analysis_core env idea model temp st = (.error e, st1)) :
    sl_run_full_analysis env idea model temp st =
      (⟨errMsg e, [], [], [], []⟩, st1) := by
  simp [sl_run_full_analysis, hnb, hc]

/-- `debate_view` has no exception handler: a failing Analyzer call
makes the whole operation raise. -/
theorem debate_view_err_analyzer (env : Env) (idea model : Str) (temp : ℚ)
    (st st1 : Trace) (e : Exn) (hnb : blank idea = false)
    (ha : run_analyzer env idea model temp st = (.error e, st1)) :
    debate_view env idea model temp st = (.error e, st1) := by
  simp [debate_view, hnb, ha]

/-- Blank input short-circuits `run_full_analysis` with no calls. -/
theorem run_full_analysis_blank (env : Env) (idea model : Str) (temp : ℚ)
    (st : Trace) (hb : blank idea = true) :
    run_full_analysis env idea model temp st =
      (⟨str "⚠️ Please enter an idea, plan, or argument first.",
        [], [], [], [], str "No input provided."⟩, st) := by
  simp [run_full_analysis, hb]

/-- Blank input short-circuits `sl_run_full_analysis` with no calls. -/
theorem sl_run_full_analysis_blank (env : Env) (idea model : Str) (temp : ℚ)
    (st : Trace) (hb : blank idea = true) :
    sl_run_full_analysis env idea model temp st =
      (⟨str "⚠️ Please enter an idea, plan, or argument first.",
        [], [], [], []⟩, st) := by
  simp [sl_run_full_analysis, hb]

/-- With the credential absent, `run_full_analysis` fails via the
caught constructor exception, with no call recorded. -/
theorem run_full_analysis_nokey (env : Env) (idea model : Str) (temp : ℚ)
    (st : Trace) (hk : env.apiKey = none) (hnb : blank idea = false) :
    run_full_analysis env idea model temp st =
      (⟨errMsg .openAIKeyMissing, [], [], [], [], errMsg .openAIKeyMissing⟩,
       st) := by
  have hc : analysis_core env idea model temp st =
      (.error .openAIKeyMissing, st) := by
    simp [analysis_core, run_analyzer, mkClient, hk]
  exact run_full_analysis_err env idea model temp st st _ hnb hc

/-- With the credential absent, `debate_view` raises the constructor
exception (no handler, no message), with no call recorded. -/
theorem debate_view_nokey (env : Env) (idea model : Str) (temp : ℚ)
    (st : Trace) (hk : env.apiKey = none) (hnb : blank idea = false) :
    debate_view env idea model temp st = (.error .openAIKeyMissing, st) := by
  have ha : run_analyzer env idea model temp st =
      (.error .openAIKeyMissing, st) := by
    simp [run_analyzer, mkClient, hk]
  exact debate_view_err_analyzer env idea model temp st st _ hnb ha

/-- With the credential absent, `compare_ideas` returns its dedicated
credential message normally, before any client construction, with no
call recorded. -/
theorem compare_ideas_nokey (env : Env) (ideaA ideaB model : Str) (temp : ℚ)
    (st : Trace) (hk : env.apiKey = none)
    (ha : blank ideaA = false) (hb : blank ideaB = false) :
    compare_ideas env ideaA ideaB model temp st =
      (.ok (str "❌ OPENAI_API_KEY missing. Check your .env file."), st) := by
  simp [compare_ideas, ha, hb, hk]

/-- The combined analysis-plus-debate user action issues exactly seven
completion calls: the three agent calls of `run_full_analysis`, then
`debate_view` re-running all three agents (no result sharing) followed
by one debate-synthesizer call. -/
theorem combined_action_trace (env : Env)
    (key idea model a0 p0 s0 a1 p1 s1 d1 : Str) (temp : ℚ) (st : Trace)
    (hk : env.apiKey = some key) (hnb : blank idea = false)
    (h0 : env.respond st.length (analyzerCall idea model temp) = .ok a0)
    (h1 : env.respond (st.length + 1)
        (perspectiveCall idea (pyStrip a0) model (biasedTemp temp)) = .ok p0)
    (h2 : env.respond (st.length + 2)
        (skepticCall idea model (biasedTemp temp)) = .ok s0)
    (g0 : env.respond (st.length + 3) (analyzerCall idea model temp) = .ok a1)
    (g1 : env.respond (st.length + 4)
        (perspectiveCall idea (pyStrip a1) model temp) = .ok p1)
    (g2 : env.respond (st.length + 5)
        (skepticCall idea model (biasedTemp temp)) = .ok s1)
    (g3 : env.respond (st.length + 6)
        (debateCall idea (pyStrip a1) (pyStrip p1) (pyStrip s1) model
          debate_default_temperature) = .ok d1) :
    (combined_action env idea model temp st).2 =
      st ++ [analyzerCall idea model temp,
             perspectiveCall idea (pyStrip a0) model (biasedTemp temp),
             skepticCall idea model (biasedTemp temp),
             analyzerCall idea model temp,
             perspectiveCall idea (pyStrip a1) model temp,
             skepticCall idea model (biasedTemp temp),
             debateCall idea (pyStrip a1) (pyStrip p1) (pyStrip s1) model
               debate_default_temperature] := by
  have hrun := run_full_analysis_ok env key idea model a0 p0 s0 temp st hk hnb
    h0 h1 h2
  have hlen : (st ++ [analyzerCall idea model temp,
      perspectiveCall idea (pyStrip a0) model (biasedTemp temp),
      skepticCall idea model (biasedTemp temp)]).length = st.length + 3 := by
    simp
  have hdb := debate_view_ok env key idea model a1 p1 s1 d1 temp
    (st ++ [analyzerCall idea model temp,
            perspectiveCall idea (pyStrip a0) model (biasedTemp temp),
            skepticCall idea model (biasedTemp temp)]) hk hnb
    (by rw [hlen]; exact g0)
    (by rw [hlen, show st.length + 3 + 1 = st.length + 4 from by omega]
        exact g1)
    (by rw [hlen, show st.length + 3 + 2 = st.length + 5 from by omega]
        exact g2)
    (by rw [hlen, show st.length + 3 + 3 = st.length + 6 from by omega]
        exact g3)
  simp [combined_action, hrun, hdb]

/-- A transport failure on the Skeptic call raises after the call is
issued (and recorded). -/
theorem run_skeptic_err (env : Env) (key text model m : Str) (temp : ℚ)
    (st : Trace) (hk : env.apiKey = some key)
    (hr : env.respond st.length (skepticCall text model temp) = .error m) :
    run_skeptic env text model temp st =
      (.error (.apiError m), st ++ [skepticCall text model temp]) := by
  simp [run_skeptic, mkClient, hk, chatCreate, hr]

/-- `try`-block execution in which Analyzer and Perspective succeed and
the Skeptic call fails: the whole block raises, after three recorded
calls. -/
theorem analysis_core_fail3 (env : Env) (key idea model a0 p0 m : Str)
    (temp : ℚ) (st : Trace) (hk : env.apiKey = some key)
    (h0 : env.respond st.length (analyzerCall idea model temp) = .ok a0)
    (h1 : env.respond (st.length + 1)
        (perspectiveCall idea (pyStrip a0) model (biasedTemp temp)) = .ok p0)
    (h2 : env.respond (st.length + 2)
        (skepticCall idea model (biasedTemp temp)) = .error m) :
    analysis_core env idea model temp st =
      (.error (.apiError m),
       st ++ [analyzerCall idea model temp,
              perspectiveCall idea (pyStrip a0) model (biasedTemp temp),
              skepticCall idea model (biasedTemp temp)]) := by
  have r1 := run_analyzer_ok env key idea model a0 temp st hk h0
  have e1 : (st ++ [analyzerCall idea model temp]).length = st.length + 1 := by
    simp
  have r2 := run_perspective_agent_ok env key idea (pyStrip a0) model p0
    (biasedTemp temp) (st ++ [analyzerCall idea model temp]) hk
    (by rw [e1]; exact h1)
  have e2 : ((st ++ [analyzerCall idea model temp]) ++
      [perspectiveCall idea (pyStrip a0) model (biasedTemp temp)]).length =
      st.length + 2 := by simp
  have r3 := run_skeptic_err env key idea model m (biasedTemp temp)
    ((st ++ [analyzerCall idea model temp]) ++
      [perspectiveCall idea (pyStrip a0) model (biasedTemp temp)]) hk
    (by rw [e2]; exact h2)
  simp only [List.append_assoc, List.cons_append, List.nil_append] at r2 r3
  simp only [analysis_core, r1, r2, r3, List.append_assoc, List.cons_append,
    List.nil_append]

/-! ## Claim theorems -/

/-- C1 (counterexample): the claim asserts that EVERY orchestrator
operation catches every exception and converts it into a human-readable
message with empty result fields.  `debate_view` (the `run_debate`
operation, `src/app.py` lines 215-235) has no handler: with a completion
service failing on the first call, it raises the `APIConnectionError`
instead of returning any message — after having issued one call. -/
theorem debate_view_propagates_exception :
    debate_view envBoom (str "I") (str "m") (2/5) [] =
      (Except.error (Exn.apiError (str "boom")),
       [analyzerCall (str "I") (str "m") (2/5)]) := by
  rfl

/-- C1 (amended): `run` (`run_full_analysis`, in both front-ends)
catches every exception raised by the three agent invocations and
returns the single formatted message with all other fields empty, even
when earlier agent calls had already succeeded; `debate_view`
propagates such exceptions uncaught. -/
theorem run_catches_all_debate_does_not :
    (∀ (env : Env) (idea model : Str) (temp : ℚ) (st st1 : Trace) (e : Exn),
      blank idea = false →
      analysis_core env idea model temp st = (.error e, st1) →
      run_full_analysis env idea model temp st =
        (⟨errMsg e, [], [], [], [], errMsg e⟩, st1) ∧
      sl_run_full_analysis env idea model temp st =
        (⟨errMsg e, [], [], [], []⟩, st1)) ∧
    (∀ (env : Env) (key idea model a0 p0 m : Str) (temp : ℚ) (st : Trace),
      env.apiKey = some key → blank idea = false →
      env.respond st.length (analyzerCall idea model temp) = .ok a0 →
      env.respond (st.length + 1)
        (perspectiveCall idea (pyStrip a0) model (biasedTemp temp)) = .ok p0 →
      env.respond (st.length + 2)
        (skepticCall idea model (biasedTemp temp)) = .error m →
      run_full_analysis env idea model temp st =
        (⟨errMsg (.apiError m), [], [], [], [], errMsg (.apiError m)⟩,
         st ++ [analyzerCall idea model temp,
                perspectiveCall idea (pyStrip a0) model (biasedTemp temp),
                skepticCall idea model (biasedTemp temp)])) ∧
    (∀ (env : Env) (idea model : Str) (temp : ℚ) (st st1 : Trace) (e : Exn),
      blank idea = false →
      run_analyzer env idea model temp st = (.error e, st1) →
      debate_view env idea model temp st = (.error e, st1)) := by
  refine ⟨?_, ?_, ?_⟩
  · intro env idea model temp st st1 e hnb hc
    exact ⟨run_full_analysis_err env idea model temp st st1 e hnb hc,
           sl_run_full_analysis_err env idea model temp st st1 e hnb hc⟩
  · intro env key idea model a0 p0 m temp st hk hnb h0 h1 h2
    exact run_full_analysis_err env idea model temp st _ _ hnb
      (analysis_core_fail3 env key idea model a0 p0 m temp st hk h0 h1 h2)
  · intro env idea model temp st st1 e hnb ha
    exact debate_view_err_analyzer env idea model temp st st1 e hnb ha

/-- C1 (witness): concrete two-successes-then-failure scenario — the
report and every output field are discarded in favour of the single
error message, and three calls were issued. -/
theorem run_catches_all_witness :
    run_full_analysis envSkeFail (str "I") (str "m") (2/5) [] =
      (⟨errMsg (.apiError (str "boom")), [], [], [], [],
        errMsg (.apiError (str "boom"))⟩,
       [analyzerCall (str "I") (str "m") (2/5),
        perspectiveCall (str "I") (pyStrip (str "out")) (str "m")
          (biasedTemp (2/5)),
        skepticCall (str "I") (str "m") (biasedTemp (2/5))]) :=
  run_catches_all_debate_does_not.2.1 envSkeFail (str "k") (str "I") (str "m")
    (str "out") (str "out") (str "boom") (2/5) [] rfl (by decide) rfl rfl rfl

/-- C2 (counterexample): the claim asserts Perspective is invoked at
`min(1.0, t+0.1)` in every operation invoking the three agents.  In
`debate_view` (`src/app.py` line 225) the Perspective call is issued at
the unmodified base temperature: at `t = 2/5` the second recorded call
carries temperature `2/5`, which differs from `min(1, 2/5 + 1/10)`. -/
theorem debate_view_perspective_unbiased :
    ((debate_view envOut (str "I") (str "m") (2/5) []).2.map Call.temp) =
      [2/5, 2/5, biasedTemp (2/5), debate_default_temperature] ∧
    (2/5 : ℚ) ≠ biasedTemp (2/5) := by
  constructor
  · rfl
  · rw [biasedTemp, min_eq_right (by norm_num)]
    norm_num

/-- C2 (amended): in `run_full_analysis` Analyzer runs at the base
temperature and Perspective and Skeptic at `min(1, t + 1/10)`; in
`debate_view` Perspective runs at the UNmodified base temperature while
Skeptic keeps the bias and the debate call runs at the 0.5 default; at
`t = 1` the biased temperature is exactly `1`. -/
theorem temperature_policy (env : Env) (key idea model a0 p0 s0 p1 d0 : Str)
    (temp : ℚ) (st : Trace) (hk : env.apiKey = some key)
    (hnb : blank idea = false)
    (h0 : env.respond st.length (analyzerCall idea model temp) = .ok a0)
    (h1 : env.respond (st.length + 1)
        (perspectiveCall idea (pyStrip a0) model (biasedTemp temp)) = .ok p0)
    (h2 : env.respond (st.length + 2)
        (skepticCall idea model (biasedTemp temp)) = .ok s0)
    (g1 : env.respond (st.length + 1)
        (perspectiveCall idea (pyStrip a0) model temp) = .ok p1)
    (g3 : env.respond (st.length + 3)
        (debateCall idea (pyStrip a0) (pyStrip p1) (pyStrip s0) model
          debate_default_temperature) = .ok d0) :
    ((run_full_analysis env idea model temp st).2.drop st.length).map
        Call.temp = [temp, biasedTemp temp, biasedTemp temp] ∧
    ((debate_view env idea model temp st).2.drop st.length).map
        Call.temp = [temp, temp, biasedTemp temp, debate_default_temperature] ∧
    biasedTemp 1 = 1 := by
  refine ⟨?_, ?_, ?_⟩
  · rw [run_full_analysis_ok env key idea model a0 p0 s0 temp st hk hnb
      h0 h1 h2]
    rw [List.drop_left]
    simp [analyzerCall, perspectiveCall, skepticCall]
  · rw [debate_view_ok env key idea model a0 p1 s0 d0 temp st hk hnb
      h0 g1 h2 g3]
    rw [List.drop_left]
    simp [analyzerCall, perspectiveCall, skepticCall, debateCall]
  · rw [biasedTemp, min_eq_left (by norm_num)]

/-- C2 (witness): the temperature facts at a concrete environment and
base temperature `2/5`. -/
theorem temperature_policy_witness :
    ((run_full_analysis envOut (str "I") (str "m") (2/5) []).2.drop 0).map
        Call.temp = [2/5, biasedTemp (2/5), biasedTemp (2/5)] ∧
    ((debate_view envOut (str "I") (str "m") (2/5) []).2.drop 0).map
        Call.temp = [2/5, 2/5, biasedTemp (2/5), debate_default_temperature] ∧
    biasedTemp 1 = 1 :=
  temperature_policy envOut (str "k") (str "I") (str "m") (str "out")
    (str "out") (str "out") (str "out") (str "out") (2/5) [] rfl (by decide)
    rfl rfl rfl rfl rfl

/-- C4 (counterexample): the claim asserts that `run`, `run_debate` and
`compare` each fail "with a distinct configuration error (not a generic
failure)" when the credential is absent.  With no credential,
`debate_view` surfaces no message at all — the constructor exception
escapes — and `run_full_analysis` returns the generic catch-all wrapper
`errMsg` rather than a dedicated credential message. -/
theorem missing_key_not_distinct :
    debate_view envNoKey (str "I") (str "m") (2/5) [] =
      (Except.error Exn.openAIKeyMissing, []) ∧
    (run_full_analysis envNoKey (str "I") (str "m") (2/5) []).1.report =
      errMsg Exn.openAIKeyMissing := by
  exact ⟨rfl, rfl⟩

/-- C4 (amended): with the credential absent and non-blank inputs, none
of the three operations issues a network call; `compare_ideas` alone
returns a dedicated credential message, while `run_full_analysis`
returns the credential exception wrapped in its generic error format
and `debate_view` propagates the exception uncaught. -/
theorem missing_key_before_network (env : Env) (ideaA ideaB model : Str)
    (temp : ℚ) (st : Trace) (hk : env.apiKey = none)
    (ha : blank ideaA = false) (hb : blank ideaB = false) :
    compare_ideas env ideaA ideaB model temp st =
      (.ok (str "❌ OPENAI_API_KEY missing. Check your .env file."), st) ∧
    run_full_analysis env ideaA model temp st =
      (⟨errMsg .openAIKeyMissing, [], [], [], [], errMsg .openAIKeyMissing⟩,
       st) ∧
    debate_view env ideaA model temp st =
      (.error .openAIKeyMissing, st) :=
  ⟨compare_ideas_nokey env ideaA ideaB model temp st hk ha hb,
   run_full_analysis_nokey env ideaA model temp st hk ha,
   debate_view_nokey env ideaA model temp st hk ha⟩

/-- C4 (witness): the amended behaviour at a concrete environment. -/
theorem missing_key_witness :
    compare_ideas envNoKey (str "I") (str "J") (str "m") (2/5) [] =
      (.ok (str "❌ OPENAI_API_KEY missing. Check your .env file."), []) ∧
    run_full_analysis envNoKey (str "I") (str "m") (2/5) [] =
      (⟨errMsg .openAIKeyMissing, [], [], [], [], errMsg .openAIKeyMissing⟩,
       []) ∧
    debate_view envNoKey (str "I") (str "m") (2/5) [] =
      (.error .openAIKeyMissing, []) :=
  missing_key_before_network envNoKey (str "I") (str "J") (str "m") (2/5) []
    rfl (by decide) (by decide)

/-- C5 (counterexample): the claim asserts a combined analysis-plus-
debate user action performs exactly six completion calls; the trace of
the combined action holds seven. -/
theorem combined_action_seven_not_six :
    (combined_action envOut (str "I") (str "m") (2/5) []).2.length = 7 ∧
    (7 : ℕ) ≠ 6 := by
  exact ⟨by decide, by decide⟩

/-- C5 (amended): `debate_view` re-runs all three agent invocations
(sharing nothing with `run_full_analysis`) and then makes one debate-
synthesizer call, so the combined analysis-plus-debate action issues
exactly SEVEN completion calls: Analyzer, Perspective, Skeptic for the
analysis, the same three again for the debate (under the debate
temperatures), and the debate call. -/
theorem combined_action_seven_calls (env : Env)
    (key idea model a0 p0 s0 a1 p1 s1 d1 : Str) (temp : ℚ) (st : Trace)
    (hk : env.apiKey = some key) (hnb : blank idea = false)
    (h0 : env.respond st.length (analyzerCall idea model temp) = .ok a0)
    (h1 : env.respond (st.length + 1)
        (perspectiveCall idea (pyStrip a0) model (biasedTemp temp)) = .ok p0)
    (h2 : env.respond (st.length + 2)
        (skepticCall idea model (biasedTemp temp)) = .ok s0)
    (g0 : env.respond (st.length + 3) (analyzerCall idea model temp) = .ok a1)
    (g1 : env.respond (st.length + 4)
        (perspectiveCall idea (pyStrip a1) model temp) = .ok p1)
    (g2 : env.respond (st.length + 5)
        (skepticCall idea model (biasedTemp temp)) = .ok s1)
    (g3 : env.respond (st.length + 6)
        (debateCall idea (pyStrip a1) (pyStrip p1) (pyStrip s1) model
          debate_default_temperature) = .ok d1) :
    (combined_action env idea model temp st).2 =
      st ++ [analyzerCall idea model temp,
             perspectiveCall idea (pyStrip a0) model (biasedTemp temp),
             skepticCall idea model (biasedTemp temp),
             analyzerCall idea model temp,
             perspectiveCall idea (pyStrip a1) model temp,
             skepticCall idea model (biasedTemp temp),
             debateCall idea (pyStrip a1) (pyStrip p1) (pyStrip s1) model
               debate_default_temperature] ∧
    (combined_action env idea model temp st).2.length = st.length + 7 := by
  have h := combined_action_trace env key idea model a0 p0 s0 a1 p1 s1 d1
    temp st hk hnb h0 h1 h2 g0 g1 g2 g3
  exact ⟨h, by rw [h]; simp⟩

/-- C5 (witness): the seven-call trace at a concrete environment. -/
theorem combined_action_seven_calls_witness :
    (combined_action envOut (str "I") (str "m") (2/5) []).2.length = 0 + 7 :=
  (combined_action_seven_calls envOut (str "k") (str "I") (str "m")
    (str "out") (str "out") (str "out") (str "out") (str "out") (str "out")
    (str "out") (2/5) [] rfl (by decide) rfl rfl rfl rfl rfl rfl rfl).2

/-- C7: blank or whitespace-only subject text makes `run_full_analysis`
(in both front-ends) return the failed tuple — a warning message in
place of the report, empty outputs — with the call trace unchanged,
i.e. without issuing any completion call. -/
theorem blank_input_no_network (env : Env) (idea model : Str) (temp : ℚ)
    (st : Trace) (hb : blank idea = true) :
    run_full_analysis env idea model temp st =
      (⟨str "⚠️ Please enter an idea, plan, or argument first.",
        [], [], [], [], str "No input provided."⟩, st) ∧
    sl_run_full_analysis env idea model temp st =
      (⟨str "⚠️ Please enter an idea, plan, or argument first.",
        [], [], [], []⟩, st) :=
  ⟨run_full_analysis_blank env idea model temp st hb,
   sl_run_full_analysis_blank env idea model temp st hb⟩

/-- C7 (witness): whitespace-only input at a concrete environment. -/
theorem blank_input_no_network_witness :
    blank (str "  \n ") = true ∧
    run_full_analysis envOut (str "  \n ") (str "m") (2/5) [] =
      (⟨str "⚠️ Please enter an idea, plan, or argument first.",
        [], [], [], [], str "No input provided."⟩, []) :=
  ⟨by decide,
   (blank_input_no_network envOut (str "  \n ") (str "m") (2/5) []
     (by decide)).1⟩

/-- C8: the Perspective request payload embeds the Analyzer output: for
a fixed subject text, distinct Analyzer outputs give distinct
Perspective user payloads; and in a successful pipeline run the
Perspective call is recorded immediately after the Analyzer call,
carrying the (trimmed) Analyzer response in its user content. -/
theorem perspective_depends_on_analyzer :
    (∀ (text a1 a2 model : Str) (temp : ℚ), a1 ≠ a2 →
      (perspectiveCall text a1 model temp).user ≠
        (perspectiveCall text a2 model temp).user) ∧
    (∀ (env : Env) (key idea model a0 p0 s0 : Str) (temp : ℚ) (st : Trace),
      env.apiKey = some key → blank idea = false →
      env.respond st.length (analyzerCall idea model temp) = .ok a0 →
      env.respond (st.length + 1)
        (perspectiveCall idea (pyStrip a0) model (biasedTemp temp)) = .ok p0 →
      env.respond (st.length + 2)
        (skepticCall idea model (biasedTemp temp)) = .ok s0 →
      (run_full_analysis env idea model temp st).2.drop st.length =
        [analyzerCall idea model temp,
         perspectiveCall idea (pyStrip a0) model (biasedTemp temp),
         skepticCall idea model (biasedTemp temp)] ∧
      (perspectiveCall idea (pyStrip a0) model (biasedTemp temp)).user =
        str "USER_TEXT:\n" ++ idea ++ str "\n\nANALYZER_OUTPUT:\n" ++
          pyStrip a0) := by
  constructor
  · intro text a1 a2 model temp hne h
    exact hne (List.append_cancel_left h)
  · intro env key idea model a0 p0 s0 temp st hk hnb h0 h1 h2
    constructor
    · rw [run_full_analysis_ok env key idea model a0 p0 s0 temp st hk hnb
        h0 h1 h2]
      rw [List.drop_left]
    · rfl

/-- C8 (witness): distinct payloads for Analyzer outputs `"x"` and
`"y"`, and the concrete three-call trace. -/
theorem perspective_depends_on_analyzer_witness :
    (perspectiveCall (str "I") (str "x") (str "m") (2/5)).user ≠
      (perspectiveCall (str "I") (str "y") (str "m") (2/5)).user ∧
    (run_full_analysis envAPS (str "I") (str "m") (2/5) []).2.drop 0 =
      [analyzerCall (str "I") (str "m") (2/5),
       perspectiveCall (str "I") (pyStrip (str "A1")) (str "m")
         (biasedTemp (2/5)),
       skepticCall (str "I") (str "m") (biasedTemp (2/5))] :=
  ⟨perspective_depends_on_analyzer.1 (str "I") (str "x") (str "y") (str "m")
     (2/5) (by decide),
   (perspective_depends_on_analyzer.2 envAPS (str "k") (str "I") (str "m")
     (str "A1") (str "P1") (str "S1") (2/5) [] rfl (by decide) rfl rfl
     rfl).1⟩

/-- C9: severity rendering is insensitive to out-of-range and
non-convertible scores — every row renders exactly as the row of its
clamped score, scores above 100 clamp to 100, below 0 to 0, values on
which `float()` fails render as 0, in-range scores pass through, and a
non-dict estimator result degrades to the fixed warning. -/
theorem severity_rendering_clamps :
    (∀ (label : Str) (v : PyVal),
      severityRow label v = severityRow label (.num (clampedScore v))) ∧
    (∀ q : ℚ, 100 < q → clampedScore (.num q) = 100) ∧
    (∀ q : ℚ, q < 0 → clampedScore (.num q) = 0) ∧
    (∀ q : ℚ, 0 ≤ q → q ≤ 100 → clampedScore (.num q) = q) ∧
    (∀ tag : Str, clampedScore (.nonNum tag) = 0) ∧
    (∀ tag : Str, render_severity_bars_data (.notDict tag) =
      str "<p>⚠️ Could not compute severity distribution.</p>") := by
  have hnum : ∀ q : ℚ, clampedScore (.num q) = max 0 (min 100 q) :=
    fun _ => rfl
  have hidem : ∀ v : PyVal,
      clampedScore (.num (clampedScore v)) = clampedScore v := by
    intro v
    have h0 : (0 : ℚ) ≤ clampedScore v := le_max_left 0 _
    have h100 : clampedScore v ≤ 100 := by
      apply max_le
      · norm_num
      · exact min_le_left 100 _
    rw [hnum, min_eq_right h100, max_eq_right h0]
  refine ⟨?_, ?_, ?_, ?_, ?_, ?_⟩
  · intro label v
    rw [severityRow, severityRow, hidem v]
  · intro q h
    rw [hnum, min_eq_left (le_of_lt h), max_eq_right (by norm_num)]
  · intro q h
    rw [hnum, min_eq_right (by linarith), max_eq_left (le_of_lt h)]
  · intro q h0 h100
    rw [hnum, min_eq_right h100, max_eq_right h0]
  · intro tag
    rw [show clampedScore (.nonNum tag) = max 0 (min 100 0) from rfl,
      min_eq_right (by norm_num), max_eq_right (le_refl 0)]
  · intro tag
    rfl

/-- C9 (witness): a score of 150 renders as the row for 100, a score of
-7 clamps to 0, a non-convertible value scores 0, and the non-dict case
yields the warning. -/
theorem severity_rendering_clamps_witness :
    severityRow (str "Risks") (.num 150) =
      severityRow (str "Risks") (.num (clampedScore (.num 150))) ∧
    clampedScore (.num 150) = 100 ∧
    clampedScore (.num (-7)) = 0 ∧
    clampedScore (.nonNum (str "oops")) = 0 ∧
    render_severity_bars_data (.notDict (str "x")) =
      str "<p>⚠️ Could not compute severity distribution.</p>" :=
  ⟨severity_rendering_clamps.1 (str "Risks") (.num 150),
   severity_rendering_clamps.2.1 150 (by norm_num),
   severity_rendering_clamps.2.2.1 (-7) (by norm_num),
   severity_rendering_clamps.2.2.2.2.1 (str "oops"),
   severity_rendering_clamps.2.2.2.2.2 (str "x")⟩

/-- C10: every debate-synthesizer completion call is issued at the
function default temperature 0.5, independently of the user base
temperature: both front-end debate paths call the default wrapper, the
wrapper records its single call at temperature `1/2` for every base
temperature, and in a successful `debate_view` run the last recorded
call is the debate call at `1/2`; the `src/sl_app.py` debate path is
the same function. -/
theorem debate_temperature_half :
    debate_default_temperature = 1/2 ∧
    (∀ (env : Env) (key text a p s model : Str) (st : Trace),
      env.apiKey = some key →
      (build_debate_transcript_default env text a p s model st).2 =
        st ++ [debateCall text a p s model (1/2)]) ∧
    (∀ (env : Env) (key idea model a0 p0 s0 d0 : Str) (temp : ℚ) (st : Trace),
      env.apiKey = some key → blank idea = false →
      env.respond st.length (analyzerCall idea model temp) = .ok a0 →
      env.respond (st.length + 1)
        (perspectiveCall idea (pyStrip a0) model temp) = .ok p0 →
      env.respond (st.length + 2)
        (skepticCall idea model (biasedTemp temp)) = .ok s0 →
      env.respond (st.length + 3)
        (debateCall idea (pyStrip a0) (pyStrip p0) (pyStrip s0) model
          debate_default_temperature) = .ok d0 →
      ((debate_view env idea model temp st).2.getLast? =
        some (debateCall idea (pyStrip a0) (pyStrip p0) (pyStrip s0) model
          debate_default_temperature))) ∧
    sl_debate_view = debate_view := by
  refine ⟨rfl, ?_, ?_, rfl⟩
  · intro env key text a p s model st hk
    exact build_debate_transcript_trace env key text a p s model
      debate_default_temperature st hk
  · intro env key idea model a0 p0 s0 d0 temp st hk hnb h0 h1 h2 h3
    rw [debate_view_ok env key idea model a0 p0 s0 d0 temp st hk hnb
      h0 h1 h2 h3]
    simp

/-- C10 (witness): the call recorded by the wrapper and the last call of a
concrete `debate_view` run both carry temperature `1/2`. -/
theorem debate_temperature_half_witness :
    (build_debate_transcript_default envOut (str "I") (str "a") (str "p")
      (str "s") (str "m") []).2 =
      [debateCall (str "I") (str "a") (str "p") (str "s") (str "m") (1/2)] ∧
    ((debate_view envOut (str "I") (str "m") (2/5) []).2.getLast? =
      some (debateCall (str "I") (pyStrip (str "out")) (pyStrip (str "out"))
        (pyStrip (str "out")) (str "m") (1/2))) :=
  ⟨debate_temperature_half.2.1 envOut (str "k") (str "I") (str "a") (str "p")
     (str "s") (str "m") [] rfl,
   debate_temperature_half.2.2.1 envOut (str "k") (str "I") (str "m")
     (str "out") (str "out") (str "out") (str "out") (2/5) [] rfl (by decide)
     rfl rfl rfl rfl⟩

/-- C3 (counterexample): the claim asserts that a placeholder token
contained in an input text "appears unchanged in the final report and
is never replaced by the text of another input".  With the analyzer text
being the literal `{SKEPTIC_OUTPUT}` token, the chained `str.replace`
calls re-substitute it: the token is absent from the final report, and
the skeptic input text sits in the analyzer slot instead. -/
theorem token_in_input_is_resubstituted :
    ¬ (tokS <:+:
      build_report tokS (str "P") (str "S") (str "E") (str "T") (str "R")) ∧
    (str "Agent\nS\n" <:+:
      build_report tokS (str "P") (str "S") (str "E") (str "T") (str "R")) := by
  exact ⟨by decide, by decide⟩

/-- C3 (amended): substitution is six sequential whole-string
`str.replace` passes in the fixed order ANALYZER, PERSPECTIVE, SKEPTIC,
EXEC_SUMMARY, TOP_THREE, RECOMMENDATIONS, so a placeholder token inside
an input text is replaced by the corresponding input whenever its
placeholder comes later in this order (here: `{RECOMMENDATIONS}` as the
analyzer text is filled, for every recommendations text, with no
token-freeness assumption), while a token whose placeholder comes
earlier in the order survives literally (here: `{ANALYZER_OUTPUT}` as
the skeptic text). -/
theorem substitution_is_sequential :
    (∀ rec : Str,
      build_report tokR (str "P") (str "S") (str "E") (str "T") rec =
        chunk0 ++ str "E" ++ chunk1 ++ rec ++ chunk2 ++ str "P" ++ chunk3 ++
          str "S" ++ chunk4 ++ str "T" ++ chunk5 ++ rec ++ chunk6) ∧
    (build_report (str "A") (str "P") tokA (str "E") (str "T") (str "R") =
      chunk0 ++ str "E" ++ chunk1 ++ str "A" ++ chunk2 ++ str "P" ++ chunk3 ++
        tokA ++ chunk4 ++ str "T" ++ chunk5 ++ str "R" ++ chunk6) ∧
    (tokA <:+:
      build_report (str "A") (str "P") tokA (str "E") (str "T") (str "R")) := by
  refine ⟨?_, by decide, by decide⟩
  intro rec
  have e15 : pyReplace (pyReplace (pyReplace (pyReplace (pyReplace
      report_template tokA tokR) tokP (str "P")) tokS (str "S"))
      tokE (str "E")) tokT (str "T") =
      (chunk0 ++ str "E" ++ chunk1) ++
        (tokR ++ ((chunk2 ++ str "P" ++ chunk3 ++ str "S" ++ chunk4 ++
          str "T" ++ chunk5) ++ (tokR ++ chunk6))) := by decide
  show pyReplace (pyReplace (pyReplace (pyReplace (pyReplace (pyReplace
      report_template tokA tokR) tokP (str "P")) tokS (str "S"))
      tokE (str "E")) tokT (str "T")) tokR rec = _
  rw [e15]
  simp only [pyReplace]
  rw [replL_step tokR rec (chunk0 ++ str "E" ++ chunk1) _ (by decide)
      (by decide),
    replL_step tokR rec (chunk2 ++ str "P" ++ chunk3 ++ str "S" ++ chunk4 ++
      str "T" ++ chunk5) _ (by decide) (by decide),
    replL_of_not_infix tokR rec chunk6 (by decide)]
  simp only [List.append_assoc]

/-- C3 (witness): the re-substitution equality at a concrete
recommendations text. -/
theorem substitution_is_sequential_witness :
    build_report tokR (str "P") (str "S") (str "E") (str "T") (str "R9") =
      chunk0 ++ str "E" ++ chunk1 ++ str "R9" ++ chunk2 ++ str "P" ++
        chunk3 ++ str "S" ++ chunk4 ++ str "T" ++ chunk5 ++ str "R9" ++
        chunk6 :=
  substitution_is_sequential.1 (str "R9")

/-- C6 (counterexample): the claim asserts that after every successful
run no placeholder token remains in the report.  When the Skeptic
output itself is the literal `{ANALYZER_OUTPUT}` token, the run
succeeds and that token remains verbatim in the final report (its own
substitution pass ran earlier in the chain). -/
theorem token_can_remain_in_report :
    (run_full_analysis envSkeTok (str "I") (str "m") (2/5) []).1.status =
      str "✅ Multi-agent analysis complete." ∧
    (tokA <:+:
      (run_full_analysis envSkeTok (str "I") (str "m") (2/5) []).1.report) := by
  exact ⟨by decide, by decide⟩

/-- C6 (amended): for every non-blank subject text, a successful run
whose three (trimmed) agent outputs are free of the six placeholder
tokens returns a report containing each agent output verbatim as a
contiguous substring and containing none of the six placeholder
tokens. -/
theorem successful_run_report_contents (env : Env)
    (key idea model a0 p0 s0 : Str) (temp : ℚ) (st : Trace)
    (hk : env.apiKey = some key) (hnb : blank idea = false)
    (h0 : env.respond st.length (analyzerCall idea model temp) = .ok a0)
    (h1 : env.respond (st.length + 1)
        (perspectiveCall idea (pyStrip a0) model (biasedTemp temp)) = .ok p0)
    (h2 : env.respond (st.length + 2)
        (skepticCall idea model (biasedTemp temp)) = .ok s0)
    (ha : TokenFree (pyStrip a0)) (hp : TokenFree (pyStrip p0))
    (hs : TokenFree (pyStrip s0)) :
    (run_full_analysis env idea model temp st).1.status =
      str "✅ Multi-agent analysis complete." ∧
    pyStrip a0 <:+: (run_full_analysis env idea model temp st).1.report ∧
    pyStrip p0 <:+: (run_full_analysis env idea model temp st).1.report ∧
    pyStrip s0 <:+: (run_full_analysis env idea model temp st).1.report ∧
    ∀ tok ∈ tokens,
      ¬ tok <:+: (run_full_analysis env idea model temp st).1.report := by
  have hrun := run_full_analysis_ok env key idea model a0 p0 s0 temp st hk hnb
    h0 h1 h2
  have hrep : (run_full_analysis env idea model temp st).1.report =
      build_report (pyStrip a0) (pyStrip p0) (pyStrip s0)
        exec_summary top_three recommendations := by rw [hrun]
  have hsplit := build_report_split (pyStrip a0) (pyStrip p0) (pyStrip s0)
    exec_summary top_three recommendations ha hp hs (by decide) (by decide)
    (by decide)
  refine ⟨by rw [hrun], ?_, ?_, ?_, ?_⟩
  · rw [hrep, hsplit]
    exact ⟨chunk0 ++ exec_summary ++ chunk1,
      chunk2 ++ pyStrip p0 ++ chunk3 ++ pyStrip s0 ++ chunk4 ++ top_three ++
        chunk5 ++ recommendations ++ chunk6,
      by simp only [List.append_assoc]⟩
  · rw [hrep, hsplit]
    exact ⟨chunk0 ++ exec_summary ++ chunk1 ++ pyStrip a0 ++ chunk2,
      chunk3 ++ pyStrip s0 ++ chunk4 ++ top_three ++ chunk5 ++
        recommendations ++ chunk6,
      by simp only [List.append_assoc]⟩
  · rw [hrep, hsplit]
    exact ⟨chunk0 ++ exec_summary ++ chunk1 ++ pyStrip a0 ++ chunk2 ++
        pyStrip p0 ++ chunk3,
      chunk4 ++ top_three ++ chunk5 ++ recommendations ++ chunk6,
      by simp only [List.append_assoc]⟩
  · intro tok hm
    rw [hrep, hsplit]
    have hm2 := hm
    simp only [tokens, List.mem_cons, List.not_mem_nil, or_false] at hm2
    rcases hm2 with rfl | rfl | rfl | rfl | rfl | rfl <;>
      exact no_token_in_composed _ hm (ha _ hm) (hp _ hm) (hs _ hm)
        (by decide) (by decide) (by decide)

/-- C6 (witness): the report contents at a concrete scripted
environment answering `"A1"`, `"P1"`, `"S1"`. -/
theorem successful_run_report_contents_witness :
    (run_full_analysis envAPS (str "I") (str "m") (2/5) []).1.status =
      str "✅ Multi-agent analysis complete." ∧
    pyStrip (str "A1") <:+:
      (run_full_analysis envAPS (str "I") (str "m") (2/5) []).1.report :=
  ⟨(successful_run_report_contents envAPS (str "k") (str "I") (str "m")
      (str "A1") (str "P1") (str "S1") (2/5) [] rfl (by decide) rfl rfl rfl
      (by decide) (by decide) (by decide)).1,
   (successful_run_report_contents envAPS (str "k") (str "I") (str "m")
      (str "A1") (str "P1") (str "S1") (2/5) [] rfl (by decide) rfl rfl rfl
      (by decide) (by decide) (by decide)).2.1⟩
